/-
  Verification of the ilo stream-output (SOL) state encoder
  (src/gallium/drivers/ilo/core/ilo_state_sol.c).

  The C code is shallowly embedded: machine integers become Nat with
  explicit `% 2 ^ w` truncation where the C type would truncate, the
  mutable destination state object becomes explicit state passing, and
  the C `assert` preconditions are modelled as checks that make the
  enclosing function fail (return false with the destination unchanged),
  matching the design's stated error-handling contract of reporting
  precondition violations as a definite failure signal.
-/
import Mathlib

set_option maxHeartbeats 1000000
set_option maxRecDepth 8000

/-! ## Device and limits -/

/-- Modelled from the spec: the generation tag of `struct ilo_dev` (the header
    defining it is not part of the extracted sources); `ilo_dev_gen` reads it. -/
structure IloDev where
  gen : Nat
deriving DecidableEq

/-- Modelled from the spec: `ilo_dev_gen(dev)` returns the device's generation tag. -/
def ilo_dev_gen (dev : IloDev) : Nat := dev.gen

/-- Modelled from the spec: `ILO_GEN(gen)` scales the major generation number
    (e.g. generation 7 and 8, with 7.5 in between) to an ordered integer tag. -/
def ILO_GEN (gen : Nat) : Nat := gen * 100

/-- Modelled from the spec: fixed per-stream declaration maximum (spec section 3:
    "up to a fixed maximum, e.g. 128"); from the header missing from src. -/
def ILO_STATE_SOL_MAX_DECL_COUNT : Nat := 128

/-- Modelled from the spec: fixed stream count (4). -/
def ILO_STATE_SOL_MAX_STREAM_COUNT : Nat := 4

/-- Modelled from the spec: fixed output-buffer count (4). -/
def ILO_STATE_SOL_MAX_BUFFER_COUNT : Nat := 4

/-! ## Hardware register fields

    The GEN7/GEN8 field shifts come from the genhw register header, which is
    not among the extracted sources.  Modelled from the spec: every field is
    written at its hardware-documented bit shift (spec section 4.3/6); the
    values below are the documented 3DSTATE_STREAMOUT / 3DSTATE_SO_DECL_LIST /
    SO_DECL layouts for generations 7 and 8. -/

def GEN7_SO_DW1_SO_ENABLE : Nat := 0x80000000

def GEN7_SO_DW1_RENDER_DISABLE : Nat := 0x40000000

def GEN7_SO_DW1_RENDER_STREAM_SELECT__SHIFT : Nat := 27

def GEN7_SO_DW1_REORDER_MODE__SHIFT : Nat := 26

def GEN7_SO_DW1_STATISTICS : Nat := 0x02000000

def GEN7_SO_DW1_BUFFER_ENABLES__SHIFT : Nat := 8

def GEN7_SO_DW2_STREAM3_READ_OFFSET__SHIFT : Nat := 29

def GEN7_SO_DW2_STREAM3_READ_LEN__SHIFT : Nat := 24

def GEN7_SO_DW2_STREAM2_READ_OFFSET__SHIFT : Nat := 21

def GEN7_SO_DW2_STREAM2_READ_LEN__SHIFT : Nat := 16

def GEN7_SO_DW2_STREAM1_READ_OFFSET__SHIFT : Nat := 13

def GEN7_SO_DW2_STREAM1_READ_LEN__SHIFT : Nat := 8

def GEN7_SO_DW2_STREAM0_READ_OFFSET__SHIFT : Nat := 5

def GEN7_SO_DW2_STREAM0_READ_LEN__SHIFT : Nat := 0

def GEN8_SO_DW3_BUFFER1_PITCH__SHIFT : Nat := 16

def GEN8_SO_DW3_BUFFER0_PITCH__SHIFT : Nat := 0

def GEN8_SO_DW4_BUFFER3_PITCH__SHIFT : Nat := 16

def GEN8_SO_DW4_BUFFER2_PITCH__SHIFT : Nat := 0

def GEN7_SO_DECL_OUTPUT_SLOT__SHIFT : Nat := 12

def GEN7_SO_DECL_HOLE_FLAG : Nat := 0x800

def GEN7_SO_DECL_REG_INDEX__SHIFT : Nat := 4

def GEN7_SO_DECL_COMPONENT_MASK__SHIFT : Nat := 0

def GEN7_SO_DECL_DW1_STREAM3_BUFFER_SELECTS__SHIFT : Nat := 12

def GEN7_SO_DECL_DW1_STREAM2_BUFFER_SELECTS__SHIFT : Nat := 8

def GEN7_SO_DECL_DW1_STREAM1_BUFFER_SELECTS__SHIFT : Nat := 4

def GEN7_SO_DECL_DW1_STREAM0_BUFFER_SELECTS__SHIFT : Nat := 0

def GEN7_SO_DECL_DW2_STREAM3_ENTRY_COUNT__SHIFT : Nat := 24

def GEN7_SO_DECL_DW2_STREAM2_ENTRY_COUNT__SHIFT : Nat := 16

def GEN7_SO_DECL_DW2_STREAM1_ENTRY_COUNT__SHIFT : Nat := 8

def GEN7_SO_DECL_DW2_STREAM0_ENTRY_COUNT__SHIFT : Nat := 0

/-- Modelled from the spec: `ILO_DEV_ASSERT(dev, 7, 8)` asserts that the device
    generation lies within the two modeled consecutive generations. -/
def ILO_DEV_ASSERT (dev : IloDev) (gen_from gen_to : Nat) : Bool :=
  decide (ILO_GEN gen_from ≤ ilo_dev_gen dev ∧ ilo_dev_gen dev ≤ ILO_GEN gen_to)

/-! ## Input and output data (struct ilo_state_sol_decl_info, stream_info,
    info, and struct ilo_state_sol, with the fields the encoder reads) -/

/-- One output declaration slot: `struct ilo_state_sol_decl_info`. -/
structure IloStateSolDeclInfo where
  attr : Nat
  is_hole : Bool
  component_base : Nat
  component_count : Nat
  buffer : Nat
deriving DecidableEq

instance : Inhabited IloStateSolDeclInfo :=
  ⟨{ attr := 0, is_hole := false, component_base := 0,
     component_count := 0, buffer := 0 }⟩

/-- One stream's info: `struct ilo_state_sol_stream_info`.  The C `decls`
    pointer with `decl_count` valid entries becomes a list read with `getD`. -/
structure IloStateSolStreamInfo where
  cv_vue_attr_count : Nat
  vue_read_base : Nat
  vue_read_count : Nat
  decl_count : Nat
  decls : List IloStateSolDeclInfo
deriving DecidableEq

/-- The encode request: `struct ilo_state_sol_info`.  The raw scratch region
    `data` (asserted zero-filled) is not modelled; only its size is kept. -/
structure IloStateSolInfo where
  data_size : Nat
  sol_enable : Bool
  stats_enable : Bool
  render_disable : Bool
  render_stream : Nat
  tristrip_reorder : Nat
  buffer_strides : Fin 4 → Nat
  streams : Fin 4 → IloStateSolStreamInfo

/-- The output state object: `struct ilo_state_sol`, with its six 32-bit
    command words `so[0..5]`, the declaration table (`decl`, one 64-bit packed
    row per slot, stored in the caller's scratch region) and `decl_count`. -/
structure IloStateSol where
  so0 : Nat
  so1 : Nat
  so2 : Nat
  so3 : Nat
  so4 : Nat
  so5 : Nat
  decl : List Nat
  decl_count : Nat
deriving DecidableEq

/-- An all-zero destination state, as `ilo_is_zeroed` requires at init. -/
def zeroIloStateSol : IloStateSol :=
  { so0 := 0, so1 := 0, so2 := 0, so3 := 0, so4 := 0, so5 := 0,
    decl := [], decl_count := 0 }

/-! ## Validators -/

/-- Embedding of `sol_stream_validate_gen7`: the conjunction of its asserted
    range and alignment checks for one stream. -/
def sol_stream_validate_gen7 (dev : IloDev) (stream : IloStateSolStreamInfo) :
    Bool :=
  ILO_DEV_ASSERT dev 7 8 &&
  decide (stream.vue_read_base + stream.vue_read_count ≤
    stream.cv_vue_attr_count) &&
  decide (stream.vue_read_base = 0 ∨ stream.vue_read_base = 2) &&
  decide (stream.vue_read_count ≤ 34) &&
  decide (stream.decl_count ≤ ILO_STATE_SOL_MAX_DECL_COUNT) &&
  (List.range stream.decl_count).all fun i =>
    let decl := stream.decls.getD i default
    (decl.is_hole || decide (decl.attr < stream.vue_read_count)) &&
    decide (decl.attr < 33) &&
    decide (decl.component_base < 4 ∧
      decl.component_base + decl.component_count ≤ 4) &&
    decide (decl.buffer < ILO_STATE_SOL_MAX_BUFFER_COUNT)

/-- Embedding of `sol_validate_gen7`: all four streams validate and every
    buffer stride is at most 2048 and a multiple of 4. -/
def sol_validate_gen7 (dev : IloDev) (info : IloStateSolInfo) : Bool :=
  ILO_DEV_ASSERT dev 7 8 &&
  ((List.finRange 4).all fun i => sol_stream_validate_gen7 dev (info.streams i)) &&
  ((List.finRange 4).all fun i =>
    decide (info.buffer_strides i ≤ 2048 ∧ info.buffer_strides i % 4 = 0))

/-! ## Primary control-word encoder (sol_set_gen7_3DSTATE_STREAMOUT) -/

/-- Per-stream vue-read pair computed by the loop in
    `sol_set_gen7_3DSTATE_STREAMOUT`: offset is `vue_read_base / 2` and len is
    `(vue_read_count + 1) / 2`, decremented when nonzero. -/
def sol_vue_read (stream : IloStateSolStreamInfo) : Nat × Nat :=
  let offset := stream.vue_read_base / 2
  let len := (stream.vue_read_count + 1) / 2
  let len := if len ≠ 0 then len - 1 else len
  (offset, len)

/-- Embedding of `sol_set_gen7_3DSTATE_STREAMOUT`.  On validation failure it
    returns false with the destination unchanged; otherwise it writes `so[0]`
    and `so[1]`, and on generation 8 also `so[2]` and `so[3]`. -/
def sol_set_gen7_3DSTATE_STREAMOUT (so : IloStateSol) (dev : IloDev)
    (info : IloStateSolInfo) : Bool × IloStateSol :=
  if !ILO_DEV_ASSERT dev 7 8 then (false, so)
  else if !sol_validate_gen7 dev info then (false, so)
  else
    let dw1 :=
      info.render_stream <<< GEN7_SO_DW1_RENDER_STREAM_SELECT__SHIFT |||
      info.tristrip_reorder <<< GEN7_SO_DW1_REORDER_MODE__SHIFT
    let dw1 := if info.sol_enable then dw1 ||| GEN7_SO_DW1_SO_ENABLE else dw1
    let dw1 :=
      if info.render_disable then dw1 ||| GEN7_SO_DW1_RENDER_DISABLE else dw1
    let dw1 := if info.stats_enable then dw1 ||| GEN7_SO_DW1_STATISTICS else dw1
    let dw1 :=
      if ilo_dev_gen dev < ILO_GEN 8 then
        let buffer_enables :=
          (if info.buffer_strides 3 ≠ 0 then 1 else 0) <<< 3 |||
          (if info.buffer_strides 2 ≠ 0 then 1 else 0) <<< 2 |||
          (if info.buffer_strides 1 ≠ 0 then 1 else 0) <<< 1 |||
          (if info.buffer_strides 0 ≠ 0 then 1 else 0)
        dw1 ||| buffer_enables <<< GEN7_SO_DW1_BUFFER_ENABLES__SHIFT
      else dw1
    let dw2 :=
      (sol_vue_read (info.streams 3)).1 <<< GEN7_SO_DW2_STREAM3_READ_OFFSET__SHIFT |||
      (sol_vue_read (info.streams 3)).2 <<< GEN7_SO_DW2_STREAM3_READ_LEN__SHIFT |||
      (sol_vue_read (info.streams 2)).1 <<< GEN7_SO_DW2_STREAM2_READ_OFFSET__SHIFT |||
      (sol_vue_read (info.streams 2)).2 <<< GEN7_SO_DW2_STREAM2_READ_LEN__SHIFT |||
      (sol_vue_read (info.streams 1)).1 <<< GEN7_SO_DW2_STREAM1_READ_OFFSET__SHIFT |||
      (sol_vue_read (info.streams 1)).2 <<< GEN7_SO_DW2_STREAM1_READ_LEN__SHIFT |||
      (sol_vue_read (info.streams 0)).1 <<< GEN7_SO_DW2_STREAM0_READ_OFFSET__SHIFT |||
      (sol_vue_read (info.streams 0)).2 <<< GEN7_SO_DW2_STREAM0_READ_LEN__SHIFT
    let so := { so with so0 := dw1 % 2 ^ 32, so1 := dw2 % 2 ^ 32 }
    let so :=
      if ILO_GEN 8 ≤ ilo_dev_gen dev then
        let dw3 :=
          info.buffer_strides 1 <<< GEN8_SO_DW3_BUFFER1_PITCH__SHIFT |||
          info.buffer_strides 0 <<< GEN8_SO_DW3_BUFFER0_PITCH__SHIFT
        let dw4 :=
          info.buffer_strides 3 <<< GEN8_SO_DW4_BUFFER3_PITCH__SHIFT |||
          info.buffer_strides 2 <<< GEN8_SO_DW4_BUFFER2_PITCH__SHIFT
        { so with so2 := dw3 % 2 ^ 32, so3 := dw4 % 2 ^ 32 }
      else so
    (true, so)

/-! ## Declaration-list encoder (sol_set_gen7_3DSTATE_SO_DECL_LIST) -/

/-- The packed 16-bit SO_DECL row for one declaration, as built in the inner
    loop of `sol_set_gen7_3DSTATE_SO_DECL_LIST`: destination buffer slot,
    component mask (an 8-bit intermediate in the C), and either the hole flag
    or the source attribute register index; the row is a 16-bit value. -/
def so_decl_val (decl : IloStateSolDeclInfo) : Nat :=
  let mask := (((1 <<< decl.component_count) - 1) <<< decl.component_base) % 2 ^ 8
  let val :=
    decl.buffer <<< GEN7_SO_DECL_OUTPUT_SLOT__SHIFT |||
    mask <<< GEN7_SO_DECL_COMPONENT_MASK__SHIFT
  let val :=
    if decl.is_hole then val ||| GEN7_SO_DECL_HOLE_FLAG
    else val ||| decl.attr <<< GEN7_SO_DECL_REG_INDEX__SHIFT
  val % 2 ^ 16

/-- The per-stream buffer-selects accumulator of
    `sol_set_gen7_3DSTATE_SO_DECL_LIST`: one bit per buffer targeted by some
    declaration of the stream (an 8-bit variable in the C). -/
def sol_buffer_selects (stream : IloStateSolStreamInfo) : Nat :=
  ((List.range stream.decl_count).foldl
    (fun acc j => acc ||| 1 <<< (stream.decls.getD j default).buffer) 0) % 2 ^ 8

/-- The 64-bit declaration-table entry for slot `j`: each stream `i` with more
    than `j` declarations ORs its packed row in at bit `16 * i`, onto the
    zero-filled slot. -/
def sol_decl_entry (info : IloStateSolInfo) (j : Nat) : Nat :=
  (List.finRange 4).foldl
    (fun acc i =>
      let stream := info.streams i
      if j < stream.decl_count then
        acc ||| so_decl_val (stream.decls.getD j default) <<< (16 * i.val)
      else acc) 0

/-- Embedding of `sol_set_gen7_3DSTATE_SO_DECL_LIST`.  The asserted
    precondition `decl_count <= max_decl_count` (per stream) is modelled as a
    failure guard; on success it writes `so[4]`, `so[5]`, the declaration
    table of exactly `max_decl_count` 64-bit entries, and `decl_count`. -/
def sol_set_gen7_3DSTATE_SO_DECL_LIST (so : IloStateSol) (dev : IloDev)
    (info : IloStateSolInfo) (max_decl_count : Nat) : Bool × IloStateSol :=
  if !ILO_DEV_ASSERT dev 7 8 then (false, so)
  else if !((List.finRange 4).all fun i =>
      decide ((info.streams i).decl_count ≤ max_decl_count)) then (false, so)
  else
    let decl_list := (List.range max_decl_count).map (sol_decl_entry info)
    let dw1 :=
      sol_buffer_selects (info.streams 3) <<< GEN7_SO_DECL_DW1_STREAM3_BUFFER_SELECTS__SHIFT |||
      sol_buffer_selects (info.streams 2) <<< GEN7_SO_DECL_DW1_STREAM2_BUFFER_SELECTS__SHIFT |||
      sol_buffer_selects (info.streams 1) <<< GEN7_SO_DECL_DW1_STREAM1_BUFFER_SELECTS__SHIFT |||
      sol_buffer_selects (info.streams 0) <<< GEN7_SO_DECL_DW1_STREAM0_BUFFER_SELECTS__SHIFT
    let dw2 :=
      (info.streams 3).decl_count <<< GEN7_SO_DECL_DW2_STREAM3_ENTRY_COUNT__SHIFT |||
      (info.streams 2).decl_count <<< GEN7_SO_DECL_DW2_STREAM2_ENTRY_COUNT__SHIFT |||
      (info.streams 1).decl_count <<< GEN7_SO_DECL_DW2_STREAM1_ENTRY_COUNT__SHIFT |||
      (info.streams 0).decl_count <<< GEN7_SO_DECL_DW2_STREAM0_ENTRY_COUNT__SHIFT
    (true, { so with so4 := dw1 % 2 ^ 32, so5 := dw2 % 2 ^ 32,
                     decl := decl_list, decl_count := max_decl_count })

/-! ## Entry points -/

/-- Modelled from the spec: the size query `ilo_state_sol_data_size` (declared
    in the header missing from src) returns the scratch bytes needed, one
    64-bit (8-byte) packed row per declaration slot on the modeled
    generations. -/
def ilo_state_sol_data_size (dev : IloDev) (max_decl_count : Nat) : Nat :=
  if ILO_GEN 7 ≤ ilo_dev_gen dev then 8 * max_decl_count else 0

/-- The maximum per-stream declaration count, computed by the loop in
    `ilo_state_sol_init`. -/
def sol_max_decl_count (info : IloStateSolInfo) : Nat :=
  let m := (info.streams 0).decl_count
  let m := if m < (info.streams 1).decl_count then (info.streams 1).decl_count else m
  let m := if m < (info.streams 2).decl_count then (info.streams 2).decl_count else m
  let m := if m < (info.streams 3).decl_count then (info.streams 3).decl_count else m
  m

/-- Embedding of `ilo_state_sol_init`.  The entry asserts (zeroed destination,
    sufficient scratch size) are failure guards; on generation 7+ both
    encoders run unconditionally and their failure flags are and-ed, exactly
    as the C `ret &= ...` sequence does (no short-circuit). -/
def ilo_state_sol_init (so : IloStateSol) (dev : IloDev)
    (info : IloStateSolInfo) : Bool × IloStateSol :=
  if so ≠ zeroIloStateSol then (false, so)
  else if ILO_GEN 7 ≤ ilo_dev_gen dev then
    let max_decl_count := sol_max_decl_count info
    if !decide (ilo_state_sol_data_size dev max_decl_count ≤ info.data_size) then
      (false, so)
    else
      let r1 := sol_set_gen7_3DSTATE_STREAMOUT so dev info
      let r2 := sol_set_gen7_3DSTATE_SO_DECL_LIST r1.2 dev info max_decl_count
      (r1.1 && r2.1, r2.2)
  else (true, so)

/-- An all-zero stream info, as `memset` produces in
    `ilo_state_sol_init_disabled`. -/
def zeroStreamInfo : IloStateSolStreamInfo :=
  { cv_vue_attr_count := 0, vue_read_base := 0, vue_read_count := 0,
    decl_count := 0, decls := [] }

/-- An all-zero SOL info, as `memset` produces in
    `ilo_state_sol_init_disabled`. -/
def zeroIloStateSolInfo : IloStateSolInfo :=
  { data_size := 0, sol_enable := false, stats_enable := false,
    render_disable := false, render_stream := 0, tristrip_reorder := 0,
    buffer_strides := fun _ => 0, streams := fun _ => zeroStreamInfo }

/-- Embedding of `ilo_state_sol_init_disabled`: zero the info, set only the
    render-disable flag, and run the normal init pipeline. -/
def ilo_state_sol_init_disabled (sol : IloStateSol) (dev : IloDev)
    (render_disable : Bool) : Bool × IloStateSol :=
  ilo_state_sol_init sol dev
    { zeroIloStateSolInfo with render_disable := render_disable }

/-- Extraction of the bit field of the given width at the given shift from a
    packed word. -/
def extractField (w shift width : Nat) : Nat := (w >>> shift) % 2 ^ width

/-- The read-offset shift of stream s in 3DSTATE_STREAMOUT dw2 (the four
    GEN7_SO_DW2_STREAMn_READ_OFFSET shifts are 8 bits apart). -/
def streamReadOffsetShift (s : Fin 4) : Nat :=
  GEN7_SO_DW2_STREAM0_READ_OFFSET__SHIFT + 8 * s.val

/-- The read-length shift of stream s in 3DSTATE_STREAMOUT dw2 (the four
    GEN7_SO_DW2_STREAMn_READ_LEN shifts are 8 bits apart). -/
def streamReadLenShift (s : Fin 4) : Nat :=
  GEN7_SO_DW2_STREAM0_READ_LEN__SHIFT + 8 * s.val

/-- Replace declaration slot k of stream s of an info with the given
    declaration (used to state that hole declarations hide their attribute
    index). -/
def setStreamDecl (info : IloStateSolInfo) (s : Fin 4) (k : Nat)
    (d : IloStateSolDeclInfo) : IloStateSolInfo :=
  let stream := info.streams s
  let stream := { stream with decls := stream.decls.set k d }
  { info with streams := Function.update info.streams s stream }

/-! ## Concrete inputs used by witnesses and counterexamples -/

/-- A generation-7 device. -/
def gen7Dev : IloDev := { gen := 700 }

/-- A generation-8 device. -/
def gen8Dev : IloDev := { gen := 800 }

/-- A small valid info (the spec's Scenario B): stream 0 reads 4 attributes
    and has one non-hole declaration of all 4 components into buffer 0. -/
def sbInfo : IloStateSolInfo :=
  { data_size := 8, sol_enable := true, stats_enable := false,
    render_disable := false, render_stream := 0, tristrip_reorder := 0,
    buffer_strides := fun i => if i = 0 then 16 else 0,
    streams := fun i =>
      if i = 0 then
        { cv_vue_attr_count := 4, vue_read_base := 0, vue_read_count := 4,
          decl_count := 1,
          decls := [{ attr := 0, is_hole := false, component_base := 0,
                      component_count := 4, buffer := 0 }] }
      else zeroStreamInfo }

/-- An invalid info (the spec's Scenario C): stream 0 has vue_read_base 2 and
    vue_read_count 35, beyond the maximum of 34; it also carries one
    declaration, so that the declaration-list encoder has something to
    write. -/
def badInfo : IloStateSolInfo :=
  { data_size := 8, sol_enable := true, stats_enable := false,
    render_disable := false, render_stream := 0, tristrip_reorder := 0,
    buffer_strides := fun _ => 0,
    streams := fun i =>
      if i = 0 then
        { cv_vue_attr_count := 37, vue_read_base := 2, vue_read_count := 35,
          decl_count := 1,
          decls := [{ attr := 0, is_hole := true, component_base := 0,
                      component_count := 0, buffer := 0 }] }
      else zeroStreamInfo }

/-- A valid info whose stream 0 has 64 (hole) declarations, so its
    declaration count does not fit in a 6-bit field. -/
def holes64Info : IloStateSolInfo :=
  { data_size := 512, sol_enable := true, stats_enable := false,
    render_disable := false, render_stream := 0, tristrip_reorder := 0,
    buffer_strides := fun _ => 0,
    streams := fun i =>
      if i = 0 then
        { cv_vue_attr_count := 0, vue_read_base := 0, vue_read_count := 0,
          decl_count := 64,
          decls := List.replicate 64
            { attr := 0, is_hole := true, component_base := 0,
              component_count := 0, buffer := 0 } }
      else zeroStreamInfo }

/-- A valid info whose stream 0 has a single hole declaration with a nonzero
    attribute index. -/
def holeAttrInfo : IloStateSolInfo :=
  { data_size := 8, sol_enable := true, stats_enable := false,
    render_disable := false, render_stream := 0, tristrip_reorder := 0,
    buffer_strides := fun _ => 0,
    streams := fun i =>
      if i = 0 then
        { cv_vue_attr_count := 0, vue_read_base := 0, vue_read_count := 0,
          decl_count := 1,
          decls := [{ attr := 5, is_hole := true, component_base := 0,
                      component_count := 4, buffer := 2 }] }
      else zeroStreamInfo }

/-! ## Bit-packing helper lemmas -/

theorem lor_eq_add (k a b : Nat) (ha : a % 2 ^ k = 0) (hb : b < 2 ^ k) :
    a ||| b = a + b := by
  obtain ⟨c, rfl⟩ := Nat.dvd_of_mod_eq_zero ha
  refine Nat.eq_of_testBit_eq fun j => ?_
  rw [Nat.testBit_or, Nat.testBit_mul_pow_two_add c hb j, Nat.testBit_mul_pow_two]
  by_cases h : j < k
  · simp [h, Nat.not_le.mpr h]
  · have hk : k ≤ j := Nat.le_of_not_lt h
    have hb' : b < 2 ^ j := lt_of_lt_of_le hb (Nat.pow_le_pow_right (by norm_num) hk)
    simp [h, hk, Nat.testBit_lt_two_pow hb']

theorem lor_eq_add' (k a b : Nat) (ha : a < 2 ^ k) (hb : b % 2 ^ k = 0) :
    a ||| b = a + b := by
  rw [Nat.lor_comm, Nat.add_comm]
  exact lor_eq_add k b a hb ha

theorem dw2_streamout_eq_sum (o0 l0 o1 l1 o2 l2 o3 l3 : Nat)
    (ho0 : o0 < 2) (ho1 : o1 < 2) (ho2 : o2 < 2) (ho3 : o3 < 2)
    (hl0 : l0 < 32) (hl1 : l1 < 32) (hl2 : l2 < 32) (hl3 : l3 < 32) :
    (o3 <<< 29 ||| l3 <<< 24 ||| o2 <<< 21 ||| l2 <<< 16 ||| o1 <<< 13 |||
      l1 <<< 8 ||| o0 <<< 5 ||| l0 <<< 0) =
    o3 * 2 ^ 29 + l3 * 2 ^ 24 + o2 * 2 ^ 21 + l2 * 2 ^ 16 + o1 * 2 ^ 13 +
      l1 * 2 ^ 8 + o0 * 2 ^ 5 + l0 := by
  simp only [Nat.shiftLeft_eq]
  have h1 : o3 * 2 ^ 29 ||| l3 * 2 ^ 24 = o3 * 2 ^ 29 + l3 * 2 ^ 24 :=
    lor_eq_add 29 _ _ (by omega) (by omega)
  rw [h1]
  have h2 : o3 * 2 ^ 29 + l3 * 2 ^ 24 ||| o2 * 2 ^ 21 =
      o3 * 2 ^ 29 + l3 * 2 ^ 24 + o2 * 2 ^ 21 :=
    lor_eq_add 24 _ _ (by omega) (by omega)
  rw [h2]
  have h3 : o3 * 2 ^ 29 + l3 * 2 ^ 24 + o2 * 2 ^ 21 ||| l2 * 2 ^ 16 =
      o3 * 2 ^ 29 + l3 * 2 ^ 24 + o2 * 2 ^ 21 + l2 * 2 ^ 16 :=
    lor_eq_add 21 _ _ (by omega) (by omega)
  rw [h3]
  have h4 : o3 * 2 ^ 29 + l3 * 2 ^ 24 + o2 * 2 ^ 21 + l2 * 2 ^ 16 |||
        o1 * 2 ^ 13 =
      o3 * 2 ^ 29 + l3 * 2 ^ 24 + o2 * 2 ^ 21 + l2 * 2 ^ 16 + o1 * 2 ^ 13 :=
    lor_eq_add 14 _ _ (by omega) (by omega)
  rw [h4]
  have h5 : o3 * 2 ^ 29 + l3 * 2 ^ 24 + o2 * 2 ^ 21 + l2 * 2 ^ 16 +
        o1 * 2 ^ 13 ||| l1 * 2 ^ 8 =
      o3 * 2 ^ 29 + l3 * 2 ^ 24 + o2 * 2 ^ 21 + l2 * 2 ^ 16 + o1 * 2 ^ 13 +
        l1 * 2 ^ 8 :=
    lor_eq_add 13 _ _ (by omega) (by omega)
  rw [h5]
  have h6 : o3 * 2 ^ 29 + l3 * 2 ^ 24 + o2 * 2 ^ 21 + l2 * 2 ^ 16 +
        o1 * 2 ^ 13 + l1 * 2 ^ 8 ||| o0 * 2 ^ 5 =
      o3 * 2 ^ 29 + l3 * 2 ^ 24 + o2 * 2 ^ 21 + l2 * 2 ^ 16 + o1 * 2 ^ 13 +
        l1 * 2 ^ 8 + o0 * 2 ^ 5 :=
    lor_eq_add 6 _ _ (by omega) (by omega)
  rw [h6]
  have h7 : o3 * 2 ^ 29 + l3 * 2 ^ 24 + o2 * 2 ^ 21 + l2 * 2 ^ 16 +
        o1 * 2 ^ 13 + l1 * 2 ^ 8 + o0 * 2 ^ 5 ||| l0 * 2 ^ 0 =
      o3 * 2 ^ 29 + l3 * 2 ^ 24 + o2 * 2 ^ 21 + l2 * 2 ^ 16 + o1 * 2 ^ 13 +
        l1 * 2 ^ 8 + o0 * 2 ^ 5 + l0 * 2 ^ 0 :=
    lor_eq_add 5 _ _ (by omega) (by omega)
  rw [h7]
  omega

theorem quad4_eq_sum (x0 x1 x2 x3 : Nat) (h0 : x0 < 16) (h1 : x1 < 16)
    (h2 : x2 < 16) (h3 : x3 < 16) :
    (x3 <<< 12 ||| x2 <<< 8 ||| x1 <<< 4 ||| x0 <<< 0) =
      x3 * 2 ^ 12 + x2 * 2 ^ 8 + x1 * 2 ^ 4 + x0 := by
  simp only [Nat.shiftLeft_eq]
  have e1 : x3 * 2 ^ 12 ||| x2 * 2 ^ 8 = x3 * 2 ^ 12 + x2 * 2 ^ 8 :=
    lor_eq_add 12 _ _ (by omega) (by omega)
  rw [e1]
  have e2 : x3 * 2 ^ 12 + x2 * 2 ^ 8 ||| x1 * 2 ^ 4 =
      x3 * 2 ^ 12 + x2 * 2 ^ 8 + x1 * 2 ^ 4 :=
    lor_eq_add 8 _ _ (by omega) (by omega)
  rw [e2]
  have e3 : x3 * 2 ^ 12 + x2 * 2 ^ 8 + x1 * 2 ^ 4 ||| x0 * 2 ^ 0 =
      x3 * 2 ^ 12 + x2 * 2 ^ 8 + x1 * 2 ^ 4 + x0 * 2 ^ 0 :=
    lor_eq_add 4 _ _ (by omega) (by omega)
  rw [e3]
  omega

theorem quad8_eq_sum (x0 x1 x2 x3 : Nat) (h0 : x0 < 256) (h1 : x1 < 256)
    (h2 : x2 < 256) (h3 : x3 < 256) :
    (x3 <<< 24 ||| x2 <<< 16 ||| x1 <<< 8 ||| x0 <<< 0) =
      x3 * 2 ^ 24 + x2 * 2 ^ 16 + x1 * 2 ^ 8 + x0 := by
  simp only [Nat.shiftLeft_eq]
  have e1 : x3 * 2 ^ 24 ||| x2 * 2 ^ 16 = x3 * 2 ^ 24 + x2 * 2 ^ 16 :=
    lor_eq_add 24 _ _ (by omega) (by omega)
  rw [e1]
  have e2 : x3 * 2 ^ 24 + x2 * 2 ^ 16 ||| x1 * 2 ^ 8 =
      x3 * 2 ^ 24 + x2 * 2 ^ 16 + x1 * 2 ^ 8 :=
    lor_eq_add 16 _ _ (by omega) (by omega)
  rw [e2]
  have e3 : x3 * 2 ^ 24 + x2 * 2 ^ 16 + x1 * 2 ^ 8 ||| x0 * 2 ^ 0 =
      x3 * 2 ^ 24 + x2 * 2 ^ 16 + x1 * 2 ^ 8 + x0 * 2 ^ 0 :=
    lor_eq_add 8 _ _ (by omega) (by omega)
  rw [e3]
  omega

theorem quad16_asc_eq_sum (x0 x1 x2 x3 : Nat) (h0 : x0 < 65536)
    (h1 : x1 < 65536) (h2 : x2 < 65536) (h3 : x3 < 65536) :
    (x0 <<< 0 ||| x1 <<< 16 ||| x2 <<< 32 ||| x3 <<< 48) =
      x0 + x1 * 2 ^ 16 + x2 * 2 ^ 32 + x3 * 2 ^ 48 := by
  simp only [Nat.shiftLeft_eq]
  have e1 : x0 * 2 ^ 0 ||| x1 * 2 ^ 16 = x0 * 2 ^ 0 + x1 * 2 ^ 16 :=
    lor_eq_add' 16 _ _ (by omega) (by omega)
  rw [e1]
  have e2 : x0 * 2 ^ 0 + x1 * 2 ^ 16 ||| x2 * 2 ^ 32 =
      x0 * 2 ^ 0 + x1 * 2 ^ 16 + x2 * 2 ^ 32 :=
    lor_eq_add' 32 _ _ (by omega) (by omega)
  rw [e2]
  have e3 : x0 * 2 ^ 0 + x1 * 2 ^ 16 + x2 * 2 ^ 32 ||| x3 * 2 ^ 48 =
      x0 * 2 ^ 0 + x1 * 2 ^ 16 + x2 * 2 ^ 32 + x3 * 2 ^ 48 :=
    lor_eq_add' 48 _ _ (by omega) (by omega)
  rw [e3]
  omega

/-! ## Validator unpacking -/

theorem validate_dev_of (dev : IloDev) (info : IloStateSolInfo)
    (hv : sol_validate_gen7 dev info = true) : ILO_DEV_ASSERT dev 7 8 = true := by
  simp only [sol_validate_gen7, Bool.and_eq_true] at hv
  exact hv.1.1

theorem validate_stream_of (dev : IloDev) (info : IloStateSolInfo)
    (hv : sol_validate_gen7 dev info = true) (s : Fin 4) :
    sol_stream_validate_gen7 dev (info.streams s) = true := by
  simp only [sol_validate_gen7, Bool.and_eq_true, List.all_eq_true] at hv
  exact hv.1.2 s (List.mem_finRange s)

theorem validate_stride_of (dev : IloDev) (info : IloStateSolInfo)
    (hv : sol_validate_gen7 dev info = true) (i : Fin 4) :
    info.buffer_strides i ≤ 2048 := by
  simp only [sol_validate_gen7, Bool.and_eq_true, List.all_eq_true,
    decide_eq_true_eq] at hv
  exact (hv.2 i (List.mem_finRange i)).1

theorem stream_validate_facts (dev : IloDev) (stream : IloStateSolStreamInfo)
    (h : sol_stream_validate_gen7 dev stream = true) :
    (stream.vue_read_base = 0 ∨ stream.vue_read_base = 2) ∧
    stream.vue_read_count ≤ 34 ∧ stream.decl_count ≤ 128 ∧
    ∀ j, j < stream.decl_count →
      (stream.decls.getD j default).attr < 33 ∧
      (stream.decls.getD j default).buffer < 4 := by
  simp only [sol_stream_validate_gen7, ILO_STATE_SOL_MAX_DECL_COUNT,
    ILO_STATE_SOL_MAX_BUFFER_COUNT, Bool.and_eq_true, decide_eq_true_eq,
    List.all_eq_true, List.mem_range] at h
  refine ⟨h.1.1.1.2, h.1.1.2, h.1.2, fun j hj => ?_⟩
  obtain ⟨⟨⟨_, ha⟩, _⟩, hb⟩ := h.2 j hj
  exact ⟨ha, hb⟩

/-! ## Vue-read arithmetic -/

theorem sol_vue_read_fst (stream : IloStateSolStreamInfo) :
    (sol_vue_read stream).1 = stream.vue_read_base / 2 := rfl

theorem sol_vue_read_snd (stream : IloStateSolStreamInfo) :
    (sol_vue_read stream).2 = (stream.vue_read_count + 1) / 2 - 1 := by
  simp only [sol_vue_read]
  split <;> omega

theorem sol_vue_read_fst_lt (stream : IloStateSolStreamInfo)
    (h : stream.vue_read_base = 0 ∨ stream.vue_read_base = 2) :
    (sol_vue_read stream).1 < 2 := by
  rw [sol_vue_read_fst]; omega

theorem sol_vue_read_snd_lt (stream : IloStateSolStreamInfo)
    (h : stream.vue_read_count ≤ 34) : (sol_vue_read stream).2 < 32 := by
  rw [sol_vue_read_snd]; omega

/-! ## Declaration-table helpers -/

theorem so_decl_val_lt (d : IloStateSolDeclInfo) : so_decl_val d < 2 ^ 16 :=
  Nat.mod_lt _ (by norm_num)

theorem sol_decl_entry_closed (info : IloStateSolInfo) (j : Nat) :
    sol_decl_entry info j =
      (if j < (info.streams 0).decl_count then
        so_decl_val ((info.streams 0).decls.getD j default) else 0) <<< 0 |||
      (if j < (info.streams 1).decl_count then
        so_decl_val ((info.streams 1).decls.getD j default) else 0) <<< 16 |||
      (if j < (info.streams 2).decl_count then
        so_decl_val ((info.streams 2).decls.getD j default) else 0) <<< 32 |||
      (if j < (info.streams 3).decl_count then
        so_decl_val ((info.streams 3).decls.getD j default) else 0) <<< 48 := by
  have h4 : List.finRange 4 = [0, 1, 2, 3] := by decide
  rw [sol_decl_entry, h4]
  simp only [List.foldl]
  split_ifs <;>
    simp [Nat.shiftLeft_eq, show ((1 : Fin 4) : Nat) = 1 from rfl,
      show ((2 : Fin 4) : Nat) = 2 from rfl, show ((3 : Fin 4) : Nat) = 3 from rfl]

theorem selects_foldl_testBit (stream : IloStateSolStreamInfo) (n b : Nat) :
    ((List.range n).foldl
      (fun acc j => acc ||| 1 <<< (stream.decls.getD j default).buffer)
      0).testBit b =
    decide (∃ j, j < n ∧ (stream.decls.getD j default).buffer = b) := by
  induction n with
  | zero => simp
  | succ n ih =>
    rw [List.range_succ, List.foldl_append]
    simp only [List.foldl]
    rw [Nat.testBit_or, ih, Nat.one_shiftLeft, Nat.testBit_two_pow]
    by_cases h1 : ∃ j, j < n ∧ (stream.decls.getD j default).buffer = b
    · obtain ⟨j, hj, hp⟩ := h1
      have hC : ∃ j, j < n + 1 ∧ (stream.decls.getD j default).buffer = b :=
        ⟨j, by omega, hp⟩
      have h1' : ∃ j, j < n ∧ (stream.decls.getD j default).buffer = b :=
        ⟨j, hj, hp⟩
      simp only [decide_eq_true h1', decide_eq_true hC, Bool.true_or]
    · by_cases h2 : (stream.decls.getD n default).buffer = b
      · have hC : ∃ j, j < n + 1 ∧ (stream.decls.getD j default).buffer = b :=
          ⟨n, by omega, h2⟩
        simp only [decide_eq_false h1, decide_eq_true h2, decide_eq_true hC,
          Bool.false_or]
      · have hC : ¬ ∃ j, j < n + 1 ∧ (stream.decls.getD j default).buffer = b := by
          rintro ⟨j, hj, hp⟩
          rcases Nat.lt_succ_iff_lt_or_eq.mp hj with h | h
          · exact h1 ⟨j, h, hp⟩
          · subst h; exact h2 hp
        simp only [decide_eq_false h1, decide_eq_false h2, decide_eq_false hC,
          Bool.false_or]

theorem sol_buffer_selects_testBit (stream : IloStateSolStreamInfo) (b : Nat)
    (hb : b < 8) :
    (sol_buffer_selects stream).testBit b =
      decide (∃ j, j < stream.decl_count ∧
        (stream.decls.getD j default).buffer = b) := by
  rw [sol_buffer_selects, Nat.testBit_mod_two_pow, selects_foldl_testBit]
  simp [hb]

theorem sol_buffer_selects_lt (stream : IloStateSolStreamInfo)
    (h : ∀ j, j < stream.decl_count →
      (stream.decls.getD j default).buffer < 4) :
    sol_buffer_selects stream < 16 := by
  have aux : ∀ n, n ≤ stream.decl_count →
      ((List.range n).foldl
        (fun acc j => acc ||| 1 <<< (stream.decls.getD j default).buffer)
        0) < 16 := by
    intro n
    induction n with
    | zero => intro; simp
    | succ n ih =>
      intro hn
      rw [List.range_succ, List.foldl_append]
      simp only [List.foldl]
      have hf := ih (by omega)
      have hbuf := h n (by omega)
      have h2 : 1 <<< (stream.decls.getD n default).buffer < 16 := by
        rw [Nat.one_shiftLeft]
        calc 2 ^ (stream.decls.getD n default).buffer ≤ 2 ^ 3 :=
              Nat.pow_le_pow_right (by norm_num) (by omega)
          _ < 16 := by norm_num
      have : (16 : Nat) = 2 ^ 4 := by norm_num
      rw [this] at hf h2 ⊢
      exact Nat.bitwise_lt_two_pow hf h2
  rw [sol_buffer_selects]
  have := aux stream.decl_count (by omega)
  omega

/-! ## Frame lemmas -/

theorem streamout_preserves_tail (so : IloStateSol) (dev : IloDev)
    (info : IloStateSolInfo) :
    (sol_set_gen7_3DSTATE_STREAMOUT so dev info).2.so4 = so.so4 ∧
    (sol_set_gen7_3DSTATE_STREAMOUT so dev info).2.so5 = so.so5 ∧
    (sol_set_gen7_3DSTATE_STREAMOUT so dev info).2.decl = so.decl ∧
    (sol_set_gen7_3DSTATE_STREAMOUT so dev info).2.decl_count =
      so.decl_count := by
  rw [sol_set_gen7_3DSTATE_STREAMOUT]
  cases ha : ILO_DEV_ASSERT dev 7 8 <;>
    cases hv : sol_validate_gen7 dev info <;>
    by_cases hg : ILO_GEN 8 ≤ ilo_dev_gen dev <;>
    simp [hg]

theorem streamout_gen7_so23 (so : IloStateSol) (dev : IloDev)
    (info : IloStateSolInfo) (h8 : ilo_dev_gen dev < ILO_GEN 8) :
    (sol_set_gen7_3DSTATE_STREAMOUT so dev info).2.so2 = so.so2 ∧
    (sol_set_gen7_3DSTATE_STREAMOUT so dev info).2.so3 = so.so3 := by
  rw [sol_set_gen7_3DSTATE_STREAMOUT]
  have hg : ¬ (ILO_GEN 8 ≤ ilo_dev_gen dev) := by omega
  cases ha : ILO_DEV_ASSERT dev 7 8 <;>
    cases hv : sol_validate_gen7 dev info <;>
    simp [hg]

theorem decllist_preserves_head (so : IloStateSol) (dev : IloDev)
    (info : IloStateSolInfo) (md : Nat) :
    (sol_set_gen7_3DSTATE_SO_DECL_LIST so dev info md).2.so0 = so.so0 ∧
    (sol_set_gen7_3DSTATE_SO_DECL_LIST so dev info md).2.so1 = so.so1 ∧
    (sol_set_gen7_3DSTATE_SO_DECL_LIST so dev info md).2.so2 = so.so2 ∧
    (sol_set_gen7_3DSTATE_SO_DECL_LIST so dev info md).2.so3 = so.so3 := by
  rw [sol_set_gen7_3DSTATE_SO_DECL_LIST]
  cases ha : ILO_DEV_ASSERT dev 7 8 <;>
    cases hall : (List.finRange 4).all
      (fun i => decide ((info.streams i).decl_count ≤ md)) <;>
    simp

/-! ## List utilities -/

theorem foldl_congr_on {α β : Type} (l : List β) (f g : α → β → α) (a : α)
    (h : ∀ acc x, x ∈ l → f acc x = g acc x) : l.foldl f a = l.foldl g a := by
  induction l generalizing a with
  | nil => rfl
  | cons x xs ih =>
    simp only [List.foldl]
    rw [h a x (by simp)]
    exact ih _ (fun acc y hy => h acc y (by simp [hy]))

theorem getD_set_self {α : Type} (l : List α) (k : Nat) (d dft : α)
    (h : k < l.length) : (l.set k d).getD k dft = d := by
  simp [List.getD_eq_getElem?_getD, List.getElem?_set_self h]

theorem getD_set_ne {α : Type} (l : List α) (k j : Nat) (d dft : α)
    (h : k ≠ j) : (l.set k d).getD j dft = l.getD j dft := by
  simp [List.getD_eq_getElem?_getD, List.getElem?_set_ne h]

/-! ## Primary encoder characterization -/

theorem streamout_success (so : IloStateSol) (dev : IloDev)
    (info : IloStateSolInfo) (hv : sol_validate_gen7 dev info = true) :
    (sol_set_gen7_3DSTATE_STREAMOUT so dev info).1 = true := by
  have ha := validate_dev_of dev info hv
  by_cases hg : ILO_GEN 8 ≤ ilo_dev_gen dev <;>
    simp [sol_set_gen7_3DSTATE_STREAMOUT, ha, hv, hg]

theorem streamout_so1_eq (so : IloStateSol) (dev : IloDev)
    (info : IloStateSolInfo) (hv : sol_validate_gen7 dev info = true) :
    (sol_set_gen7_3DSTATE_STREAMOUT so dev info).2.so1 =
      (sol_vue_read (info.streams 3)).1 * 2 ^ 29 +
      (sol_vue_read (info.streams 3)).2 * 2 ^ 24 +
      (sol_vue_read (info.streams 2)).1 * 2 ^ 21 +
      (sol_vue_read (info.streams 2)).2 * 2 ^ 16 +
      (sol_vue_read (info.streams 1)).1 * 2 ^ 13 +
      (sol_vue_read (info.streams 1)).2 * 2 ^ 8 +
      (sol_vue_read (info.streams 0)).1 * 2 ^ 5 +
      (sol_vue_read (info.streams 0)).2 := by
  have ha := validate_dev_of dev info hv
  have hS := fun t => stream_validate_facts dev (info.streams t)
    (validate_stream_of dev info hv t)
  have ho : ∀ t : Fin 4, (sol_vue_read (info.streams t)).1 < 2 :=
    fun t => sol_vue_read_fst_lt _ (hS t).1
  have hl : ∀ t : Fin 4, (sol_vue_read (info.streams t)).2 < 32 :=
    fun t => sol_vue_read_snd_lt _ (hS t).2.1
  have hsum := dw2_streamout_eq_sum
    (sol_vue_read (info.streams 0)).1 (sol_vue_read (info.streams 0)).2
    (sol_vue_read (info.streams 1)).1 (sol_vue_read (info.streams 1)).2
    (sol_vue_read (info.streams 2)).1 (sol_vue_read (info.streams 2)).2
    (sol_vue_read (info.streams 3)).1 (sol_vue_read (info.streams 3)).2
    (ho 0) (ho 1) (ho 2) (ho 3) (hl 0) (hl 1) (hl 2) (hl 3)
  have ho0 := ho 0
  have ho1 := ho 1
  have ho2 := ho 2
  have ho3 := ho 3
  have hl0 := hl 0
  have hl1 := hl 1
  have hl2 := hl 2
  have hl3 := hl 3
  by_cases hg : ILO_GEN 8 ≤ ilo_dev_gen dev <;>
    simp only [sol_set_gen7_3DSTATE_STREAMOUT, ha, hv, Bool.not_true,
      Bool.false_eq_true, if_false, hg, if_true, if_neg, not_false_eq_true,
      GEN7_SO_DW2_STREAM3_READ_OFFSET__SHIFT, GEN7_SO_DW2_STREAM3_READ_LEN__SHIFT,
      GEN7_SO_DW2_STREAM2_READ_OFFSET__SHIFT, GEN7_SO_DW2_STREAM2_READ_LEN__SHIFT,
      GEN7_SO_DW2_STREAM1_READ_OFFSET__SHIFT, GEN7_SO_DW2_STREAM1_READ_LEN__SHIFT,
      GEN7_SO_DW2_STREAM0_READ_OFFSET__SHIFT, GEN7_SO_DW2_STREAM0_READ_LEN__SHIFT] <;>
    rw [hsum] <;>
    [skip; skip] <;>
    exact Nat.mod_eq_of_lt (by omega)

/-- C1: for every stream of a valid SOL info, the primary control words encode
    the stream's vue-read pair: the 1-bit read-offset field at the stream's
    read-offset shift holds vue_read_base / 2 (vue_read_base being 0 or 2),
    and the 5-bit read-length field holds ceil(vue_read_count / 2) - 1
    truncated at zero (in Nat, (vue_read_count + 1) / 2 - 1), which is 0
    whenever vue_read_count is 0 or 1. -/
theorem sol_streamout_encodes_vue_read (dev : IloDev) (info : IloStateSolInfo)
    (so : IloStateSol) (s : Fin 4) (hv : sol_validate_gen7 dev info = true) :
    (sol_set_gen7_3DSTATE_STREAMOUT so dev info).1 = true ∧
    extractField (sol_set_gen7_3DSTATE_STREAMOUT so dev info).2.so1
        (streamReadOffsetShift s) 1 = (info.streams s).vue_read_base / 2 ∧
    extractField (sol_set_gen7_3DSTATE_STREAMOUT so dev info).2.so1
        (streamReadLenShift s) 5 =
      ((info.streams s).vue_read_count + 1) / 2 - 1 ∧
    ((info.streams s).vue_read_count ≤ 1 →
      extractField (sol_set_gen7_3DSTATE_STREAMOUT so dev info).2.so1
        (streamReadLenShift s) 5 = 0) := by
  have hS := fun t => stream_validate_facts dev (info.streams t)
    (validate_stream_of dev info hv t)
  have ho0 := sol_vue_read_fst_lt _ (hS 0).1
  have ho1 := sol_vue_read_fst_lt _ (hS 1).1
  have ho2 := sol_vue_read_fst_lt _ (hS 2).1
  have ho3 := sol_vue_read_fst_lt _ (hS 3).1
  have hl0 := sol_vue_read_snd_lt _ (hS 0).2.1
  have hl1 := sol_vue_read_snd_lt _ (hS 1).2.1
  have hl2 := sol_vue_read_snd_lt _ (hS 2).2.1
  have hl3 := sol_vue_read_snd_lt _ (hS 3).2.1
  have hso1 := streamout_so1_eq so dev info hv
  refine ⟨streamout_success so dev info hv, ?_, ?_, ?_⟩
  · rw [hso1, ← sol_vue_read_fst (info.streams s)]
    simp only [extractField, Nat.shiftRight_eq_div_pow, streamReadOffsetShift,
      GEN7_SO_DW2_STREAM0_READ_OFFSET__SHIFT]
    fin_cases s <;> simp <;> omega
  · rw [hso1, ← sol_vue_read_snd (info.streams s)]
    simp only [extractField, Nat.shiftRight_eq_div_pow, streamReadLenShift,
      GEN7_SO_DW2_STREAM0_READ_LEN__SHIFT]
    fin_cases s <;> simp <;> omega
  · intro hc
    rw [hso1]
    have hsnd := sol_vue_read_snd (info.streams s)
    simp only [extractField, Nat.shiftRight_eq_div_pow, streamReadLenShift,
      GEN7_SO_DW2_STREAM0_READ_LEN__SHIFT]
    fin_cases s <;> simp_all <;> omega

theorem sol_streamout_encodes_vue_read_witness :
    sol_validate_gen7 gen7Dev sbInfo = true ∧
    ((sol_set_gen7_3DSTATE_STREAMOUT zeroIloStateSol gen7Dev sbInfo).1 = true ∧
     extractField (sol_set_gen7_3DSTATE_STREAMOUT zeroIloStateSol gen7Dev
         sbInfo).2.so1 (streamReadOffsetShift 0) 1 =
       (sbInfo.streams 0).vue_read_base / 2 ∧
     extractField (sol_set_gen7_3DSTATE_STREAMOUT zeroIloStateSol gen7Dev
         sbInfo).2.so1 (streamReadLenShift 0) 5 =
       ((sbInfo.streams 0).vue_read_count + 1) / 2 - 1 ∧
     ((sbInfo.streams 0).vue_read_count ≤ 1 →
       extractField (sol_set_gen7_3DSTATE_STREAMOUT zeroIloStateSol gen7Dev
           sbInfo).2.so1 (streamReadLenShift 0) 5 = 0)) :=
  ⟨by decide, sol_streamout_encodes_vue_read gen7Dev sbInfo zeroIloStateSol 0
    (by decide)⟩

/-! ## Declaration-list encoder characterization -/

theorem fin4_cases (i : Fin 4) : i = 0 ∨ i = 1 ∨ i = 2 ∨ i = 3 := by
  fin_cases i <;> simp

theorem sol_max_decl_count_ge (info : IloStateSolInfo) (i : Fin 4) :
    (info.streams i).decl_count ≤ sol_max_decl_count info := by
  rcases fin4_cases i with rfl | rfl | rfl | rfl <;>
    (simp only [sol_max_decl_count]; split_ifs <;> omega)

theorem decllist_decl_eq (so : IloStateSol) (dev : IloDev)
    (info : IloStateSolInfo) (md : Nat) (ha : ILO_DEV_ASSERT dev 7 8 = true)
    (hmd : ∀ i : Fin 4, (info.streams i).decl_count ≤ md) :
    (sol_set_gen7_3DSTATE_SO_DECL_LIST so dev info md).1 = true ∧
    (sol_set_gen7_3DSTATE_SO_DECL_LIST so dev info md).2.decl =
      (List.range md).map (sol_decl_entry info) ∧
    (sol_set_gen7_3DSTATE_SO_DECL_LIST so dev info md).2.decl_count = md ∧
    (sol_set_gen7_3DSTATE_SO_DECL_LIST so dev info md).2.so4 =
      (sol_buffer_selects (info.streams 3) <<< 12 |||
       sol_buffer_selects (info.streams 2) <<< 8 |||
       sol_buffer_selects (info.streams 1) <<< 4 |||
       sol_buffer_selects (info.streams 0) <<< 0) % 2 ^ 32 ∧
    (sol_set_gen7_3DSTATE_SO_DECL_LIST so dev info md).2.so5 =
      ((info.streams 3).decl_count <<< 24 |||
       (info.streams 2).decl_count <<< 16 |||
       (info.streams 1).decl_count <<< 8 |||
       (info.streams 0).decl_count <<< 0) % 2 ^ 32 := by
  have hall : ((List.finRange 4).all fun i =>
      decide ((info.streams i).decl_count ≤ md)) = true := by
    rw [List.all_eq_true]
    intro i _
    simp [hmd i]
  rw [sol_set_gen7_3DSTATE_SO_DECL_LIST, ha, hall]
  simp [GEN7_SO_DECL_DW1_STREAM3_BUFFER_SELECTS__SHIFT,
    GEN7_SO_DECL_DW1_STREAM2_BUFFER_SELECTS__SHIFT,
    GEN7_SO_DECL_DW1_STREAM1_BUFFER_SELECTS__SHIFT,
    GEN7_SO_DECL_DW1_STREAM0_BUFFER_SELECTS__SHIFT,
    GEN7_SO_DECL_DW2_STREAM3_ENTRY_COUNT__SHIFT,
    GEN7_SO_DECL_DW2_STREAM2_ENTRY_COUNT__SHIFT,
    GEN7_SO_DECL_DW2_STREAM1_ENTRY_COUNT__SHIFT,
    GEN7_SO_DECL_DW2_STREAM0_ENTRY_COUNT__SHIFT]

/-- C2: the declaration table has exactly as many 64-bit entries as the
    largest per-stream declaration count, and the entry at slot k holds
    stream s's packed 16-bit row exactly in bits 16*s .. 16*s+16, those bits
    being 0 when stream s has at most k declarations. -/
theorem sol_decl_list_table (dev : IloDev) (info : IloStateSolInfo)
    (so : IloStateSol) (s : Fin 4) (k : Nat)
    (ha : ILO_DEV_ASSERT dev 7 8 = true)
    (hk : k < sol_max_decl_count info) :
    (sol_set_gen7_3DSTATE_SO_DECL_LIST so dev info
        (sol_max_decl_count info)).1 = true ∧
    (sol_set_gen7_3DSTATE_SO_DECL_LIST so dev info
        (sol_max_decl_count info)).2.decl.length = sol_max_decl_count info ∧
    extractField ((sol_set_gen7_3DSTATE_SO_DECL_LIST so dev info
        (sol_max_decl_count info)).2.decl.getD k 0) (16 * s.val) 16 =
      (if k < (info.streams s).decl_count then
        so_decl_val ((info.streams s).decls.getD k default)
      else 0) := by
  obtain ⟨h1, hdecl, hdc, hso4, hso5⟩ :=
    decllist_decl_eq so dev info (sol_max_decl_count info) ha
      (sol_max_decl_count_ge info)
  refine ⟨h1, ?_, ?_⟩
  · rw [hdecl, List.length_map, List.length_range]
  · rw [hdecl]
    have hget : ((List.range (sol_max_decl_count info)).map
        (sol_decl_entry info)).getD k 0 = sol_decl_entry info k := by
      rw [List.getD_eq_getElem?_getD, List.getElem?_map,
        List.getElem?_range hk]
      rfl
    rw [hget, sol_decl_entry_closed]
    have t0lt : (if k < (info.streams 0).decl_count then
        so_decl_val ((info.streams 0).decls.getD k default) else 0) < 65536 := by
      split
      · exact so_decl_val_lt _
      · norm_num
    have t1lt : (if k < (info.streams 1).decl_count then
        so_decl_val ((info.streams 1).decls.getD k default) else 0) < 65536 := by
      split
      · exact so_decl_val_lt _
      · norm_num
    have t2lt : (if k < (info.streams 2).decl_count then
        so_decl_val ((info.streams 2).decls.getD k default) else 0) < 65536 := by
      split
      · exact so_decl_val_lt _
      · norm_num
    have t3lt : (if k < (info.streams 3).decl_count then
        so_decl_val ((info.streams 3).decls.getD k default) else 0) < 65536 := by
      split
      · exact so_decl_val_lt _
      · norm_num
    rw [quad16_asc_eq_sum _ _ _ _ t0lt t1lt t2lt t3lt]
    simp only [extractField, Nat.shiftRight_eq_div_pow]
    rcases fin4_cases s with rfl | rfl | rfl | rfl
    · simp only [show ((16 : Nat) * ((0 : Fin 4) : Nat)) = 0 from rfl]
      omega
    · simp only [show ((16 : Nat) * ((1 : Fin 4) : Nat)) = 16 from rfl]
      omega
    · simp only [show ((16 : Nat) * ((2 : Fin 4) : Nat)) = 32 from rfl]
      omega
    · simp only [show ((16 : Nat) * ((3 : Fin 4) : Nat)) = 48 from rfl]
      omega

theorem sol_decl_list_table_witness :
    ILO_DEV_ASSERT gen7Dev 7 8 = true ∧ 0 < sol_max_decl_count sbInfo ∧
    ((sol_set_gen7_3DSTATE_SO_DECL_LIST zeroIloStateSol gen7Dev sbInfo
        (sol_max_decl_count sbInfo)).1 = true ∧
     (sol_set_gen7_3DSTATE_SO_DECL_LIST zeroIloStateSol gen7Dev sbInfo
        (sol_max_decl_count sbInfo)).2.decl.length = sol_max_decl_count sbInfo ∧
     extractField ((sol_set_gen7_3DSTATE_SO_DECL_LIST zeroIloStateSol gen7Dev
        sbInfo (sol_max_decl_count sbInfo)).2.decl.getD 0 0) (16 * (0 : Fin 4).val)
        16 =
      (if 0 < (sbInfo.streams 0).decl_count then
        so_decl_val ((sbInfo.streams 0).decls.getD 0 default)
      else 0)) :=
  ⟨by decide, by decide,
   sol_decl_list_table gen7Dev sbInfo zeroIloStateSol 0 0 (by decide) (by decide)⟩

/-- C3 counterexample: holes64Info is a valid SOL info whose stream 0 has 64
    declarations (within the fixed per-stream maximum of 128), yet the 6-bit
    field at stream 0's position in the count word holds 0, not 64: a 6-bit
    count field cannot represent the valid declaration counts. -/
theorem sol_decl_count_6bit_cex :
    sol_validate_gen7 gen7Dev holes64Info = true ∧
    (sol_set_gen7_3DSTATE_SO_DECL_LIST zeroIloStateSol gen7Dev holes64Info
        (sol_max_decl_count holes64Info)).1 = true ∧
    extractField (sol_set_gen7_3DSTATE_SO_DECL_LIST zeroIloStateSol gen7Dev
        holes64Info (sol_max_decl_count holes64Info)).2.so5
      GEN7_SO_DECL_DW2_STREAM0_ENTRY_COUNT__SHIFT 6 ≠
      (holes64Info.streams 0).decl_count := by decide

/-- C3 (amended): in the buffer-selects word the 4-bit nibble of stream s has
    bit b set iff some declaration of stream s targets buffer b, and in the
    count word the count field of stream s -- which is 8 bits wide, not 6, at
    bit offset 8*s -- equals stream s's decl_count, for all 4 streams, with no
    field overlapping another. -/
theorem sol_decl_list_summary_words (dev : IloDev) (info : IloStateSolInfo)
    (so : IloStateSol) (s : Fin 4) (b : Fin 4)
    (hv : sol_validate_gen7 dev info = true) :
    (sol_set_gen7_3DSTATE_SO_DECL_LIST so dev info
        (sol_max_decl_count info)).1 = true ∧
    ((extractField (sol_set_gen7_3DSTATE_SO_DECL_LIST so dev info
        (sol_max_decl_count info)).2.so4 (4 * s.val) 4).testBit b.val = true ↔
      ∃ j, j < (info.streams s).decl_count ∧
        ((info.streams s).decls.getD j default).buffer = b.val) ∧
    extractField (sol_set_gen7_3DSTATE_SO_DECL_LIST so dev info
        (sol_max_decl_count info)).2.so5 (8 * s.val) 8 =
      (info.streams s).decl_count := by
  have ha := validate_dev_of dev info hv
  obtain ⟨h1, _, _, hso4, hso5⟩ :=
    decllist_decl_eq so dev info (sol_max_decl_count info) ha
      (sol_max_decl_count_ge info)
  have hS := fun t => stream_validate_facts dev (info.streams t)
    (validate_stream_of dev info hv t)
  have hbs0 : sol_buffer_selects (info.streams 0) < 16 :=
    sol_buffer_selects_lt _ (fun j hj => ((hS 0).2.2.2 j hj).2)
  have hbs1 : sol_buffer_selects (info.streams 1) < 16 :=
    sol_buffer_selects_lt _ (fun j hj => ((hS 1).2.2.2 j hj).2)
  have hbs2 : sol_buffer_selects (info.streams 2) < 16 :=
    sol_buffer_selects_lt _ (fun j hj => ((hS 2).2.2.2 j hj).2)
  have hbs3 : sol_buffer_selects (info.streams 3) < 16 :=
    sol_buffer_selects_lt _ (fun j hj => ((hS 3).2.2.2 j hj).2)
  have hdc0 : (info.streams 0).decl_count < 256 := by have := (hS 0).2.2.1; omega
  have hdc1 : (info.streams 1).decl_count < 256 := by have := (hS 1).2.2.1; omega
  have hdc2 : (info.streams 2).decl_count < 256 := by have := (hS 2).2.2.1; omega
  have hdc3 : (info.streams 3).decl_count < 256 := by have := (hS 3).2.2.1; omega
  have hq4 := quad4_eq_sum (sol_buffer_selects (info.streams 0))
    (sol_buffer_selects (info.streams 1)) (sol_buffer_selects (info.streams 2))
    (sol_buffer_selects (info.streams 3)) hbs0 hbs1 hbs2 hbs3
  have hq8 := quad8_eq_sum (info.streams 0).decl_count
    (info.streams 1).decl_count (info.streams 2).decl_count
    (info.streams 3).decl_count hdc0 hdc1 hdc2 hdc3
  refine ⟨h1, ?_, ?_⟩
  · rw [hso4, hq4]
    have hfield : extractField ((sol_buffer_selects (info.streams 3) * 2 ^ 12 +
        sol_buffer_selects (info.streams 2) * 2 ^ 8 +
        sol_buffer_selects (info.streams 1) * 2 ^ 4 +
        sol_buffer_selects (info.streams 0)) % 2 ^ 32) (4 * s.val) 4 =
        sol_buffer_selects (info.streams s) := by
      simp only [extractField, Nat.shiftRight_eq_div_pow]
      rcases fin4_cases s with rfl | rfl | rfl | rfl
      · simp only [show ((4 : Nat) * ((0 : Fin 4) : Nat)) = 0 from rfl]
        omega
      · simp only [show ((4 : Nat) * ((1 : Fin 4) : Nat)) = 4 from rfl]
        omega
      · simp only [show ((4 : Nat) * ((2 : Fin 4) : Nat)) = 8 from rfl]
        omega
      · simp only [show ((4 : Nat) * ((3 : Fin 4) : Nat)) = 12 from rfl]
        omega
    rw [hfield, sol_buffer_selects_testBit (info.streams s) b.val
      (by have := b.isLt; omega)]
    rw [decide_eq_true_eq]
  · rw [hso5, hq8]
    simp only [extractField, Nat.shiftRight_eq_div_pow]
    rcases fin4_cases s with rfl | rfl | rfl | rfl
    · simp only [show ((8 : Nat) * ((0 : Fin 4) : Nat)) = 0 from rfl]
      omega
    · simp only [show ((8 : Nat) * ((1 : Fin 4) : Nat)) = 8 from rfl]
      omega
    · simp only [show ((8 : Nat) * ((2 : Fin 4) : Nat)) = 16 from rfl]
      omega
    · simp only [show ((8 : Nat) * ((3 : Fin 4) : Nat)) = 24 from rfl]
      omega

theorem sol_decl_list_summary_words_witness :
    sol_validate_gen7 gen7Dev sbInfo = true ∧
    ((sol_set_gen7_3DSTATE_SO_DECL_LIST zeroIloStateSol gen7Dev sbInfo
        (sol_max_decl_count sbInfo)).1 = true ∧
     ((extractField (sol_set_gen7_3DSTATE_SO_DECL_LIST zeroIloStateSol gen7Dev
        sbInfo (sol_max_decl_count sbInfo)).2.so4 (4 * (0 : Fin 4).val)
        4).testBit (0 : Fin 4).val = true ↔
       ∃ j, j < (sbInfo.streams 0).decl_count ∧
         ((sbInfo.streams 0).decls.getD j default).buffer = (0 : Fin 4).val) ∧
     extractField (sol_set_gen7_3DSTATE_SO_DECL_LIST zeroIloStateSol gen7Dev
        sbInfo (sol_max_decl_count sbInfo)).2.so5 (8 * (0 : Fin 4).val) 8 =
       (sbInfo.streams 0).decl_count) :=
  ⟨by decide,
   sol_decl_list_summary_words gen7Dev sbInfo zeroIloStateSol 0 0 (by decide)⟩

theorem or_flag (c : Prop) [Decidable c] (x k : Nat) :
    (if c then x ||| k else x) = x ||| (if c then k else 0) := by
  split <;> simp

theorem testBit_ite_pow (c : Prop) [Decidable c] (n b : Nat) (h : n ≠ b) :
    (if c then 2 ^ n else 0).testBit b = false := by
  split <;> simp [Nat.testBit_two_pow, h]

theorem testBit_zero_ite_one (c : Prop) [Decidable c] :
    (if c then 1 else 0).testBit 0 = decide c := by
  split <;> simp [*]

theorem quad_bits_eq_sum (e0 e1 e2 e3 : Nat) (h0 : e0 < 2) (h1 : e1 < 2)
    (h2 : e2 < 2) (h3 : e3 < 2) :
    (e3 <<< 3 ||| e2 <<< 2 ||| e1 <<< 1 ||| e0) =
      e3 * 8 + e2 * 4 + e1 * 2 + e0 := by
  simp only [Nat.shiftLeft_eq]
  have s1 : e3 * 2 ^ 3 ||| e2 * 2 ^ 2 = e3 * 2 ^ 3 + e2 * 2 ^ 2 :=
    lor_eq_add 3 _ _ (by omega) (by omega)
  rw [s1]
  have s2 : e3 * 2 ^ 3 + e2 * 2 ^ 2 ||| e1 * 2 ^ 1 =
      e3 * 2 ^ 3 + e2 * 2 ^ 2 + e1 * 2 ^ 1 :=
    lor_eq_add 2 _ _ (by omega) (by omega)
  rw [s2]
  have s3 : e3 * 2 ^ 3 + e2 * 2 ^ 2 + e1 * 2 ^ 1 ||| e0 =
      e3 * 2 ^ 3 + e2 * 2 ^ 2 + e1 * 2 ^ 1 + e0 :=
    lor_eq_add 1 _ _ (by omega) (by omega)
  rw [s3]
  omega

theorem ite_one_le (c : Prop) [Decidable c] : (if c then 1 else 0) < 2 := by
  split <;> omega

theorem quad_bool_testBit0 (c0 c1 c2 c3 : Prop) [Decidable c0] [Decidable c1]
    [Decidable c2] [Decidable c3] :
    ((if c3 then 1 else 0) <<< 3 ||| (if c2 then 1 else 0) <<< 2 |||
     (if c1 then 1 else 0) <<< 1 ||| (if c0 then 1 else 0)).testBit 0 =
      decide c0 := by
  rw [quad_bits_eq_sum _ _ _ _ (ite_one_le c0) (ite_one_le c1) (ite_one_le c2)
    (ite_one_le c3), Nat.testBit_to_div_mod]
  have b1 := ite_one_le c1
  have b2 := ite_one_le c2
  have b3 := ite_one_le c3
  by_cases h : c0
  · rw [if_pos h, decide_eq_true h]
    exact decide_eq_true (by omega)
  · rw [if_neg h, decide_eq_false h]
    exact decide_eq_false (by omega)

theorem quad_bool_testBit1 (c0 c1 c2 c3 : Prop) [Decidable c0] [Decidable c1]
    [Decidable c2] [Decidable c3] :
    ((if c3 then 1 else 0) <<< 3 ||| (if c2 then 1 else 0) <<< 2 |||
     (if c1 then 1 else 0) <<< 1 ||| (if c0 then 1 else 0)).testBit 1 =
      decide c1 := by
  rw [quad_bits_eq_sum _ _ _ _ (ite_one_le c0) (ite_one_le c1) (ite_one_le c2)
    (ite_one_le c3), Nat.testBit_to_div_mod]
  have b0 := ite_one_le c0
  have b2 := ite_one_le c2
  have b3 := ite_one_le c3
  by_cases h : c1
  · rw [if_pos h, decide_eq_true h]
    exact decide_eq_true (by omega)
  · rw [if_neg h, decide_eq_false h]
    exact decide_eq_false (by omega)

theorem quad_bool_testBit2 (c0 c1 c2 c3 : Prop) [Decidable c0] [Decidable c1]
    [Decidable c2] [Decidable c3] :
    ((if c3 then 1 else 0) <<< 3 ||| (if c2 then 1 else 0) <<< 2 |||
     (if c1 then 1 else 0) <<< 1 ||| (if c0 then 1 else 0)).testBit 2 =
      decide c2 := by
  rw [quad_bits_eq_sum _ _ _ _ (ite_one_le c0) (ite_one_le c1) (ite_one_le c2)
    (ite_one_le c3), Nat.testBit_to_div_mod]
  have b0 := ite_one_le c0
  have b1 := ite_one_le c1
  have b3 := ite_one_le c3
  by_cases h : c2
  · rw [if_pos h, decide_eq_true h]
    exact decide_eq_true (by omega)
  · rw [if_neg h, decide_eq_false h]
    exact decide_eq_false (by omega)

theorem quad_bool_testBit3 (c0 c1 c2 c3 : Prop) [Decidable c0] [Decidable c1]
    [Decidable c2] [Decidable c3] :
    ((if c3 then 1 else 0) <<< 3 ||| (if c2 then 1 else 0) <<< 2 |||
     (if c1 then 1 else 0) <<< 1 ||| (if c0 then 1 else 0)).testBit 3 =
      decide c3 := by
  rw [quad_bits_eq_sum _ _ _ _ (ite_one_le c0) (ite_one_le c1) (ite_one_le c2)
    (ite_one_le c3), Nat.testBit_to_div_mod]
  have b0 := ite_one_le c0
  have b1 := ite_one_le c1
  have b2 := ite_one_le c2
  by_cases h : c3
  · rw [if_pos h, decide_eq_true h]
    exact decide_eq_true (by omega)
  · rw [if_neg h, decide_eq_false h]
    exact decide_eq_false (by omega)

theorem dw1_gen7_low_testBit (rs tr e : Nat) (c1 c2 c3 : Prop)
    [Decidable c1] [Decidable c2] [Decidable c3] (b : Nat) (hb : b < 4) :
    ((rs <<< 27 ||| tr <<< 26 ||| (if c1 then 2 ^ 31 else 0) |||
      (if c2 then 2 ^ 30 else 0) ||| (if c3 then 2 ^ 25 else 0) |||
      e <<< 8) % 2 ^ 32).testBit (8 + b) = e.testBit b := by
  rw [Nat.testBit_mod_two_pow, Nat.testBit_or, Nat.testBit_or, Nat.testBit_or,
    Nat.testBit_or, Nat.testBit_or, Nat.testBit_shiftLeft, Nat.testBit_shiftLeft,
    Nat.testBit_shiftLeft, testBit_ite_pow c1 31 (8 + b) (by omega),
    testBit_ite_pow c2 30 (8 + b) (by omega),
    testBit_ite_pow c3 25 (8 + b) (by omega)]
  have h27 : decide (8 + b ≥ 27) = false := decide_eq_false (by omega)
  have h26 : decide (8 + b ≥ 26) = false := decide_eq_false (by omega)
  have h08 : decide (8 + b ≥ 8) = true := decide_eq_true (by omega)
  have hlt : decide (8 + b < 32) = true := decide_eq_true (by omega)
  have hsub : 8 + b - 8 = b := by omega
  rw [h27, h26, h08, hlt, hsub]
  simp

theorem dw1_gen8_low_testBit (rs tr : Nat) (c1 c2 c3 : Prop)
    [Decidable c1] [Decidable c2] [Decidable c3] (b : Nat) (hb : b < 25) :
    ((rs <<< 27 ||| tr <<< 26 ||| (if c1 then 2 ^ 31 else 0) |||
      (if c2 then 2 ^ 30 else 0) |||
      (if c3 then 2 ^ 25 else 0)) % 2 ^ 32).testBit b = false := by
  rw [Nat.testBit_mod_two_pow, Nat.testBit_or, Nat.testBit_or, Nat.testBit_or,
    Nat.testBit_or, Nat.testBit_shiftLeft, Nat.testBit_shiftLeft,
    testBit_ite_pow c1 31 b (by omega), testBit_ite_pow c2 30 b (by omega),
    testBit_ite_pow c3 25 b (by omega)]
  have h27 : decide (b ≥ 27) = false := decide_eq_false (by omega)
  have h26 : decide (b ≥ 26) = false := decide_eq_false (by omega)
  rw [h27, h26]
  simp

theorem pair16_eq_sum (hi lo : Nat) (hlo : lo < 65536) :
    (hi <<< 16 ||| lo <<< 0) = hi * 2 ^ 16 + lo := by
  simp only [Nat.shiftLeft_eq]
  have h := lor_eq_add 16 (hi * 2 ^ 16) (lo * 2 ^ 0) (by omega) (by omega)
  rw [h]
  omega

/-- C4: for every valid SOL info, on generation 7 the primary word has one
    enable bit per output buffer equal to whether that buffer's stride is
    nonzero and the pitch words so[2], so[3] are not written, while on
    generation 8 the enable bits are absent from the primary word and so[2],
    so[3] carry the four buffer pitches, two 16-bit pitches per word. -/
theorem sol_streamout_buffer_handling (dev : IloDev) (info : IloStateSolInfo)
    (so : IloStateSol) (hv : sol_validate_gen7 dev info = true) :
    (sol_set_gen7_3DSTATE_STREAMOUT so dev info).1 = true ∧
    (ilo_dev_gen dev < ILO_GEN 8 →
      (∀ i : Fin 4,
        (sol_set_gen7_3DSTATE_STREAMOUT so dev info).2.so0.testBit
          (GEN7_SO_DW1_BUFFER_ENABLES__SHIFT + i.val) =
          decide (info.buffer_strides i ≠ 0)) ∧
      (sol_set_gen7_3DSTATE_STREAMOUT so dev info).2.so2 = so.so2 ∧
      (sol_set_gen7_3DSTATE_STREAMOUT so dev info).2.so3 = so.so3) ∧
    (ILO_GEN 8 ≤ ilo_dev_gen dev →
      (∀ i : Fin 4,
        (sol_set_gen7_3DSTATE_STREAMOUT so dev info).2.so0.testBit
          (GEN7_SO_DW1_BUFFER_ENABLES__SHIFT + i.val) = false) ∧
      extractField (sol_set_gen7_3DSTATE_STREAMOUT so dev info).2.so2
          GEN8_SO_DW3_BUFFER0_PITCH__SHIFT 16 = info.buffer_strides 0 ∧
      extractField (sol_set_gen7_3DSTATE_STREAMOUT so dev info).2.so2
          GEN8_SO_DW3_BUFFER1_PITCH__SHIFT 16 = info.buffer_strides 1 ∧
      extractField (sol_set_gen7_3DSTATE_STREAMOUT so dev info).2.so3
          GEN8_SO_DW4_BUFFER2_PITCH__SHIFT 16 = info.buffer_strides 2 ∧
      extractField (sol_set_gen7_3DSTATE_STREAMOUT so dev info).2.so3
          GEN8_SO_DW4_BUFFER3_PITCH__SHIFT 16 = info.buffer_strides 3) := by
  have ha := validate_dev_of dev info hv
  have hso : GEN7_SO_DW1_SO_ENABLE = 2 ^ 31 := by norm_num [GEN7_SO_DW1_SO_ENABLE]
  have hrd : GEN7_SO_DW1_RENDER_DISABLE = 2 ^ 30 := by
    norm_num [GEN7_SO_DW1_RENDER_DISABLE]
  have hst : GEN7_SO_DW1_STATISTICS = 2 ^ 25 := by
    norm_num [GEN7_SO_DW1_STATISTICS]
  refine ⟨streamout_success so dev info hv, ?_, ?_⟩
  · intro h8
    have hg : ¬ ILO_GEN 8 ≤ ilo_dev_gen dev := by omega
    refine ⟨?_, (streamout_gen7_so23 so dev info h8).1,
      (streamout_gen7_so23 so dev info h8).2⟩
    intro i
    simp only [sol_set_gen7_3DSTATE_STREAMOUT, ha, hv, Bool.not_true,
      Bool.false_eq_true, if_false, h8, if_true, hg,
      GEN7_SO_DW1_RENDER_STREAM_SELECT__SHIFT, GEN7_SO_DW1_REORDER_MODE__SHIFT,
      GEN7_SO_DW1_BUFFER_ENABLES__SHIFT, hso, hrd, hst, or_flag]
    rcases fin4_cases i with rfl | rfl | rfl | rfl
    · simp only [show ((0 : Fin 4) : Nat) = 0 from rfl]
      rw [dw1_gen7_low_testBit _ _ _ _ _ _ 0 (by omega), quad_bool_testBit0]
    · simp only [show ((1 : Fin 4) : Nat) = 1 from rfl]
      rw [dw1_gen7_low_testBit _ _ _ _ _ _ 1 (by omega), quad_bool_testBit1]
    · simp only [show ((2 : Fin 4) : Nat) = 2 from rfl]
      rw [dw1_gen7_low_testBit _ _ _ _ _ _ 2 (by omega), quad_bool_testBit2]
    · simp only [show ((3 : Fin 4) : Nat) = 3 from rfl]
      rw [dw1_gen7_low_testBit _ _ _ _ _ _ 3 (by omega), quad_bool_testBit3]
  · intro h8
    have hg : ¬ ilo_dev_gen dev < ILO_GEN 8 := by omega
    have hstr0 := validate_stride_of dev info hv 0
    have hstr1 := validate_stride_of dev info hv 1
    have hstr2 := validate_stride_of dev info hv 2
    have hstr3 := validate_stride_of dev info hv 3
    have hp01 := pair16_eq_sum (info.buffer_strides 1) (info.buffer_strides 0)
      (by omega)
    have hp23 := pair16_eq_sum (info.buffer_strides 3) (info.buffer_strides 2)
      (by omega)
    refine ⟨?_, ?_, ?_, ?_, ?_⟩
    · intro i
      simp only [sol_set_gen7_3DSTATE_STREAMOUT, ha, hv, Bool.not_true,
        Bool.false_eq_true, if_false, h8, if_true, hg,
        GEN7_SO_DW1_RENDER_STREAM_SELECT__SHIFT, GEN7_SO_DW1_REORDER_MODE__SHIFT,
        GEN7_SO_DW1_BUFFER_ENABLES__SHIFT, hso, hrd, hst, or_flag]
      rcases fin4_cases i with rfl | rfl | rfl | rfl
      · simp only [show ((0 : Fin 4) : Nat) = 0 from rfl]
        rw [dw1_gen8_low_testBit _ _ _ _ _ (8 + 0) (by omega)]
      · simp only [show ((1 : Fin 4) : Nat) = 1 from rfl]
        rw [dw1_gen8_low_testBit _ _ _ _ _ (8 + 1) (by omega)]
      · simp only [show ((2 : Fin 4) : Nat) = 2 from rfl]
        rw [dw1_gen8_low_testBit _ _ _ _ _ (8 + 2) (by omega)]
      · simp only [show ((3 : Fin 4) : Nat) = 3 from rfl]
        rw [dw1_gen8_low_testBit _ _ _ _ _ (8 + 3) (by omega)]
    all_goals
      simp only [sol_set_gen7_3DSTATE_STREAMOUT, ha, hv, Bool.not_true,
        Bool.false_eq_true, if_false, h8, if_true, hg,
        GEN8_SO_DW3_BUFFER1_PITCH__SHIFT, GEN8_SO_DW3_BUFFER0_PITCH__SHIFT,
        GEN8_SO_DW4_BUFFER3_PITCH__SHIFT, GEN8_SO_DW4_BUFFER2_PITCH__SHIFT,
        extractField, Nat.shiftRight_eq_div_pow]
    · rw [hp01]; omega
    · rw [hp01]; omega
    · rw [hp23]; omega
    · rw [hp23]; omega

theorem sol_streamout_buffer_handling_witness :
    (sol_validate_gen7 gen7Dev sbInfo = true ∧
     (sol_set_gen7_3DSTATE_STREAMOUT zeroIloStateSol gen7Dev sbInfo).1 = true ∧
     (ilo_dev_gen gen7Dev < ILO_GEN 8 →
       (∀ i : Fin 4,
         (sol_set_gen7_3DSTATE_STREAMOUT zeroIloStateSol gen7Dev
             sbInfo).2.so0.testBit (GEN7_SO_DW1_BUFFER_ENABLES__SHIFT + i.val) =
           decide (sbInfo.buffer_strides i ≠ 0)) ∧
       (sol_set_gen7_3DSTATE_STREAMOUT zeroIloStateSol gen7Dev sbInfo).2.so2 =
         zeroIloStateSol.so2 ∧
       (sol_set_gen7_3DSTATE_STREAMOUT zeroIloStateSol gen7Dev sbInfo).2.so3 =
         zeroIloStateSol.so3)) ∧
    (sol_validate_gen7 gen8Dev sbInfo = true ∧
     (ILO_GEN 8 ≤ ilo_dev_gen gen8Dev →
       (∀ i : Fin 4,
         (sol_set_gen7_3DSTATE_STREAMOUT zeroIloStateSol gen8Dev
             sbInfo).2.so0.testBit (GEN7_SO_DW1_BUFFER_ENABLES__SHIFT + i.val) =
           false) ∧
       extractField (sol_set_gen7_3DSTATE_STREAMOUT zeroIloStateSol gen8Dev
           sbInfo).2.so2 GEN8_SO_DW3_BUFFER0_PITCH__SHIFT 16 =
         sbInfo.buffer_strides 0 ∧
       extractField (sol_set_gen7_3DSTATE_STREAMOUT zeroIloStateSol gen8Dev
           sbInfo).2.so2 GEN8_SO_DW3_BUFFER1_PITCH__SHIFT 16 =
         sbInfo.buffer_strides 1 ∧
       extractField (sol_set_gen7_3DSTATE_STREAMOUT zeroIloStateSol gen8Dev
           sbInfo).2.so3 GEN8_SO_DW4_BUFFER2_PITCH__SHIFT 16 =
         sbInfo.buffer_strides 2 ∧
       extractField (sol_set_gen7_3DSTATE_STREAMOUT zeroIloStateSol gen8Dev
           sbInfo).2.so3 GEN8_SO_DW4_BUFFER3_PITCH__SHIFT 16 =
         sbInfo.buffer_strides 3)) :=
  ⟨⟨by decide, (sol_streamout_buffer_handling gen7Dev sbInfo zeroIloStateSol
      (by decide)).1,
    (sol_streamout_buffer_handling gen7Dev sbInfo zeroIloStateSol
      (by decide)).2.1⟩,
   ⟨by decide, (sol_streamout_buffer_handling gen8Dev sbInfo zeroIloStateSol
      (by decide)).2.2⟩⟩

theorem streamout_fail (so : IloStateSol) (dev : IloDev)
    (info : IloStateSolInfo) (hv : sol_validate_gen7 dev info = false) :
    sol_set_gen7_3DSTATE_STREAMOUT so dev info = (false, so) := by
  rw [sol_set_gen7_3DSTATE_STREAMOUT]
  cases ha : ILO_DEV_ASSERT dev 7 8 <;> simp [hv]

/-- C5 counterexample: badInfo fails validation (vue_read_count 35 exceeds the
    maximum), and ilo_state_sol_init on a zeroed destination indeed returns
    failure, yet the destination is not left unchanged: the declaration-list
    encoder still ran and wrote the summary words, the declaration table and
    its recorded length. -/
theorem init_unchanged_on_failure_cex :
    sol_validate_gen7 gen7Dev badInfo = false ∧
    (ilo_state_sol_init zeroIloStateSol gen7Dev badInfo).1 = false ∧
    (ilo_state_sol_init zeroIloStateSol gen7Dev badInfo).2 ≠ zeroIloStateSol := by
  decide

/-- C5 (amended): when validation fails, ilo_state_sol_init returns failure
    and the primary control words so[0]..so[3] are left unchanged (the primary
    encoder validates before writing anything), but the declaration-list
    encoder still runs unconditionally: so[4], so[5], the declaration table
    and its recorded length are written exactly as on the success path. -/
theorem init_validation_failure (dev : IloDev) (info : IloStateSolInfo)
    (so : IloStateSol) (hso : so = zeroIloStateSol)
    (h7 : ILO_GEN 7 ≤ ilo_dev_gen dev)
    (hsz : ilo_state_sol_data_size dev (sol_max_decl_count info) ≤
      info.data_size)
    (hv : sol_validate_gen7 dev info = false) :
    (ilo_state_sol_init so dev info).1 = false ∧
    (ilo_state_sol_init so dev info).2.so0 = 0 ∧
    (ilo_state_sol_init so dev info).2.so1 = 0 ∧
    (ilo_state_sol_init so dev info).2.so2 = 0 ∧
    (ilo_state_sol_init so dev info).2.so3 = 0 ∧
    (ilo_state_sol_init so dev info).2 =
      (sol_set_gen7_3DSTATE_SO_DECL_LIST zeroIloStateSol dev info
        (sol_max_decl_count info)).2 := by
  subst hso
  have hstream := streamout_fail zeroIloStateSol dev info hv
  have hpres := decllist_preserves_head zeroIloStateSol dev info
    (sol_max_decl_count info)
  simp [ilo_state_sol_init, h7, hsz, hstream, hpres.1, hpres.2.1,
    hpres.2.2.1, hpres.2.2.2, show zeroIloStateSol.so0 = 0 from rfl,
    show zeroIloStateSol.so1 = 0 from rfl, show zeroIloStateSol.so2 = 0 from rfl,
    show zeroIloStateSol.so3 = 0 from rfl]

theorem init_validation_failure_witness :
    zeroIloStateSol = zeroIloStateSol ∧ ILO_GEN 7 ≤ ilo_dev_gen gen7Dev ∧
    ilo_state_sol_data_size gen7Dev (sol_max_decl_count badInfo) ≤
      badInfo.data_size ∧
    sol_validate_gen7 gen7Dev badInfo = false ∧
    ((ilo_state_sol_init zeroIloStateSol gen7Dev badInfo).1 = false ∧
     (ilo_state_sol_init zeroIloStateSol gen7Dev badInfo).2.so0 = 0 ∧
     (ilo_state_sol_init zeroIloStateSol gen7Dev badInfo).2.so1 = 0 ∧
     (ilo_state_sol_init zeroIloStateSol gen7Dev badInfo).2.so2 = 0 ∧
     (ilo_state_sol_init zeroIloStateSol gen7Dev badInfo).2.so3 = 0 ∧
     (ilo_state_sol_init zeroIloStateSol gen7Dev badInfo).2 =
       (sol_set_gen7_3DSTATE_SO_DECL_LIST zeroIloStateSol gen7Dev badInfo
         (sol_max_decl_count badInfo)).2) :=
  ⟨rfl, by decide, by decide, by decide,
   init_validation_failure gen7Dev badInfo zeroIloStateSol rfl (by decide)
     (by decide) (by decide)⟩

/-- C6: an info with a stream having vue_read_base 2 and vue_read_count 35
    (beyond the maximum of 34) fails validation, and the encode entry point
    ilo_state_sol_init reports the failure to its caller by returning false. -/
theorem init_rejects_vue_read_35 (dev : IloDev) (info : IloStateSolInfo)
    (so : IloStateSol) (s : Fin 4) (h7 : ILO_GEN 7 ≤ ilo_dev_gen dev)
    (hb : (info.streams s).vue_read_base = 2)
    (hc : (info.streams s).vue_read_count = 35) :
    (ilo_state_sol_init so dev info).1 = false := by
  have hsv : sol_stream_validate_gen7 dev (info.streams s) = false := by
    simp [sol_stream_validate_gen7, hc]
  have hv : sol_validate_gen7 dev info = false := by
    cases hvv : sol_validate_gen7 dev info
    · rfl
    · have := validate_stream_of dev info hvv s
      rw [hsv] at this
      exact absurd this (by simp)
  rcases eq_or_ne so zeroIloStateSol with rfl | hne
  · by_cases hd : ilo_state_sol_data_size dev (sol_max_decl_count info) ≤
        info.data_size
    · simp [ilo_state_sol_init, h7, hd,
        streamout_fail zeroIloStateSol dev info hv]
    · simp [ilo_state_sol_init, h7, hd]
  · simp [ilo_state_sol_init, hne]

theorem init_rejects_vue_read_35_witness :
    ILO_GEN 7 ≤ ilo_dev_gen gen7Dev ∧
    (badInfo.streams 0).vue_read_base = 2 ∧
    (badInfo.streams 0).vue_read_count = 35 ∧
    (ilo_state_sol_init zeroIloStateSol gen7Dev badInfo).1 = false :=
  ⟨by decide, by decide, by decide,
   init_rejects_vue_read_35 gen7Dev badInfo zeroIloStateSol 0 (by decide)
     (by decide) (by decide)⟩

/-- C7: encoding the all-zero info built by the disabled constructor (with the
    optional render-disable flag) succeeds, and the resulting state has every
    word zero except for the render-disable bit of word 0 when the flag is
    set; the recorded declaration-table length is 0 and the table is empty. -/
theorem init_disabled_spec (dev : IloDev) (so : IloStateSol) (rd : Bool)
    (h7 : ILO_GEN 7 ≤ ilo_dev_gen dev) (h8 : ilo_dev_gen dev ≤ ILO_GEN 8)
    (hso : so = zeroIloStateSol) :
    ilo_state_sol_init_disabled so dev rd =
      (true, { zeroIloStateSol with
        so0 := if rd then GEN7_SO_DW1_RENDER_DISABLE else 0 }) := by
  subst hso
  have h7' : 700 ≤ dev.gen := by simpa [ILO_GEN, ilo_dev_gen] using h7
  have h8' : dev.gen ≤ 800 := by simpa [ILO_GEN, ilo_dev_gen] using h8
  have ha : ILO_DEV_ASSERT dev 7 8 = true := by
    simp [ILO_DEV_ASSERT, ILO_GEN, ilo_dev_gen]
    omega
  cases rd <;> by_cases hg : 800 ≤ dev.gen <;>
    simp [ilo_state_sol_init_disabled, ilo_state_sol_init,
      sol_set_gen7_3DSTATE_STREAMOUT, sol_set_gen7_3DSTATE_SO_DECL_LIST,
      sol_validate_gen7, sol_stream_validate_gen7, ha, zeroIloStateSolInfo,
      zeroStreamInfo, sol_max_decl_count, ilo_state_sol_data_size,
      sol_vue_read, sol_buffer_selects, sol_decl_entry, ILO_GEN, ilo_dev_gen,
      h7', hg, GEN7_SO_DW1_RENDER_STREAM_SELECT__SHIFT,
      GEN7_SO_DW1_REORDER_MODE__SHIFT, GEN7_SO_DW1_BUFFER_ENABLES__SHIFT,
      GEN7_SO_DW1_RENDER_DISABLE, GEN8_SO_DW3_BUFFER1_PITCH__SHIFT,
      GEN8_SO_DW3_BUFFER0_PITCH__SHIFT, GEN8_SO_DW4_BUFFER3_PITCH__SHIFT,
      GEN8_SO_DW4_BUFFER2_PITCH__SHIFT,
      GEN7_SO_DECL_DW1_STREAM3_BUFFER_SELECTS__SHIFT,
      GEN7_SO_DECL_DW1_STREAM2_BUFFER_SELECTS__SHIFT,
      GEN7_SO_DECL_DW1_STREAM1_BUFFER_SELECTS__SHIFT,
      GEN7_SO_DECL_DW1_STREAM0_BUFFER_SELECTS__SHIFT,
      GEN7_SO_DECL_DW2_STREAM3_ENTRY_COUNT__SHIFT,
      GEN7_SO_DECL_DW2_STREAM2_ENTRY_COUNT__SHIFT,
      GEN7_SO_DECL_DW2_STREAM1_ENTRY_COUNT__SHIFT,
      GEN7_SO_DECL_DW2_STREAM0_ENTRY_COUNT__SHIFT, zeroIloStateSol]

theorem init_disabled_spec_witness :
    ILO_GEN 7 ≤ ilo_dev_gen gen7Dev ∧ ilo_dev_gen gen7Dev ≤ ILO_GEN 8 ∧
    zeroIloStateSol = zeroIloStateSol ∧
    ilo_state_sol_init_disabled zeroIloStateSol gen7Dev true =
      (true, { zeroIloStateSol with
        so0 := if true then GEN7_SO_DW1_RENDER_DISABLE else 0 }) :=
  ⟨by decide, by decide, rfl,
   init_disabled_spec gen7Dev zeroIloStateSol true (by decide) (by decide) rfl⟩

/-- C8: encoding is deterministic: running ilo_state_sol_init on the same info
    and device into two independently zero-initialized destinations yields
    identical results (same success flag, same command words, same declaration
    table and recorded length). -/
theorem init_deterministic (dev : IloDev) (info : IloStateSolInfo)
    (so1 so2 : IloStateSol) (h1 : so1 = zeroIloStateSol)
    (h2 : so2 = zeroIloStateSol) :
    ilo_state_sol_init so1 dev info = ilo_state_sol_init so2 dev info := by
  subst h1
  subst h2
  rfl

theorem init_deterministic_witness :
    zeroIloStateSol = zeroIloStateSol ∧ zeroIloStateSol = zeroIloStateSol ∧
    ilo_state_sol_init zeroIloStateSol gen7Dev sbInfo =
      ilo_state_sol_init zeroIloStateSol gen7Dev sbInfo :=
  ⟨rfl, rfl, init_deterministic gen7Dev sbInfo zeroIloStateSol zeroIloStateSol
    rfl rfl⟩

/-- C10: on generation 7 (gen below 8) the encode pipeline never writes words
    2 and 3 of the state object: starting from the required zeroed
    destination, they are still zero after ilo_state_sol_init, whatever the
    info. -/
theorem init_gen7_frame_so23 (dev : IloDev) (info : IloStateSolInfo)
    (so : IloStateSol) (h7 : ILO_GEN 7 ≤ ilo_dev_gen dev)
    (h8 : ilo_dev_gen dev < ILO_GEN 8) (hso : so = zeroIloStateSol) :
    (ilo_state_sol_init so dev info).2.so2 = 0 ∧
    (ilo_state_sol_init so dev info).2.so3 = 0 := by
  subst hso
  by_cases hd : ilo_state_sol_data_size dev (sol_max_decl_count info) ≤
      info.data_size
  · have hs23 := streamout_gen7_so23 zeroIloStateSol dev info h8
    have hd23 := decllist_preserves_head
      (sol_set_gen7_3DSTATE_STREAMOUT zeroIloStateSol dev info).2 dev info
      (sol_max_decl_count info)
    simp [ilo_state_sol_init, h7, hd, hd23.2.2.1, hd23.2.2.2, hs23.1, hs23.2,
      show zeroIloStateSol.so2 = 0 from rfl, show zeroIloStateSol.so3 = 0 from rfl]
  · simp [ilo_state_sol_init, h7, hd, show zeroIloStateSol.so2 = 0 from rfl,
      show zeroIloStateSol.so3 = 0 from rfl]

theorem init_gen7_frame_so23_witness :
    ILO_GEN 7 ≤ ilo_dev_gen gen7Dev ∧ ilo_dev_gen gen7Dev < ILO_GEN 8 ∧
    zeroIloStateSol = zeroIloStateSol ∧
    ((ilo_state_sol_init zeroIloStateSol gen7Dev sbInfo).2.so2 = 0 ∧
     (ilo_state_sol_init zeroIloStateSol gen7Dev sbInfo).2.so3 = 0) :=
  ⟨by decide, by decide, rfl,
   init_gen7_frame_so23 gen7Dev sbInfo zeroIloStateSol (by decide) (by decide)
     rfl⟩

/-! ## Congruence machinery for C9 -/

theorem all_congr_on {α : Type} (l : List α) (f g : α → Bool)
    (h : ∀ x ∈ l, f x = g x) : l.all f = l.all g := by
  induction l with
  | nil => rfl
  | cons x xs ih =>
    simp only [List.all_cons]
    rw [h x (by simp), ih (fun y hy => h y (by simp [hy]))]

theorem so_decl_val_hole (d : IloStateSolDeclInfo) (a : Nat)
    (h : d.is_hole = true) :
    so_decl_val { d with attr := a } = so_decl_val d := by
  simp [so_decl_val, h]

theorem stream_validate_set_hole (dev : IloDev) (S : IloStateSolStreamInfo)
    (k a : Nat) (hk : k < S.decls.length)
    (hhole : (S.decls.getD k default).is_hole = true)
    (hattr : (S.decls.getD k default).attr < 33) (ha : a < 33) :
    sol_stream_validate_gen7 dev
      { S with decls :=
        S.decls.set k { S.decls.getD k default with attr := a } } =
    sol_stream_validate_gen7 dev S := by
  simp only [sol_stream_validate_gen7]
  congr 1
  apply all_congr_on
  intro j hj
  rcases eq_or_ne j k with rfl | hne
  · rw [getD_set_self _ _ _ _ hk]
    simp only [hhole, Bool.true_or, Bool.true_and, decide_eq_true hattr,
      decide_eq_true ha]
  · rw [getD_set_ne _ _ _ _ _ (Ne.symm hne)]

theorem buffer_selects_set (S : IloStateSolStreamInfo) (k : Nat)
    (d : IloStateSolDeclInfo) (hk : k < S.decls.length)
    (hbuf : d.buffer = (S.decls.getD k default).buffer) :
    sol_buffer_selects { S with decls := S.decls.set k d } =
      sol_buffer_selects S := by
  simp only [sol_buffer_selects]
  congr 1
  apply foldl_congr_on
  intro acc j hj
  rcases eq_or_ne j k with rfl | hne
  · rw [getD_set_self _ _ _ _ hk, hbuf]
  · rw [getD_set_ne _ _ _ _ _ (Ne.symm hne)]

theorem streamout_congr (so : IloStateSol) (dev : IloDev)
    (i1 i2 : IloStateSolInfo)
    (hval : sol_validate_gen7 dev i1 = sol_validate_gen7 dev i2)
    (hvr : ∀ t : Fin 4, sol_vue_read (i1.streams t) = sol_vue_read (i2.streams t))
    (hse : i1.sol_enable = i2.sol_enable)
    (hrd : i1.render_disable = i2.render_disable)
    (hst : i1.stats_enable = i2.stats_enable)
    (hrs : i1.render_stream = i2.render_stream)
    (htr : i1.tristrip_reorder = i2.tristrip_reorder)
    (hbs : ∀ t : Fin 4, i1.buffer_strides t = i2.buffer_strides t) :
    sol_set_gen7_3DSTATE_STREAMOUT so dev i1 =
      sol_set_gen7_3DSTATE_STREAMOUT so dev i2 := by
  simp only [sol_set_gen7_3DSTATE_STREAMOUT, hval, hvr, hse, hrd, hst, hrs,
    htr, hbs]

theorem decllist_congr (so : IloStateSol) (dev : IloDev) (md : Nat)
    (i1 i2 : IloStateSolInfo)
    (hdc : ∀ t : Fin 4, (i1.streams t).decl_count = (i2.streams t).decl_count)
    (hbsel : ∀ t : Fin 4,
      sol_buffer_selects (i1.streams t) = sol_buffer_selects (i2.streams t))
    (hentry : sol_decl_entry i1 = sol_decl_entry i2) :
    sol_set_gen7_3DSTATE_SO_DECL_LIST so dev i1 md =
      sol_set_gen7_3DSTATE_SO_DECL_LIST so dev i2 md := by
  simp only [sol_set_gen7_3DSTATE_SO_DECL_LIST, hdc, hbsel, hentry]

/-- C9: the encoded output does not depend on the attribute index of a hole
    declaration: replacing a hole declaration's attribute index by any other
    value below the hardware limit of 33 (so that validation is unaffected)
    makes ilo_state_sol_init produce a byte-identical result. -/
theorem init_hole_attr_independent (dev : IloDev) (info : IloStateSolInfo)
    (so : IloStateSol) (s : Fin 4) (k a : Nat)
    (hhole : ((info.streams s).decls.getD k default).is_hole = true)
    (hattr : ((info.streams s).decls.getD k default).attr < 33)
    (ha : a < 33) :
    ilo_state_sol_init so dev
      (setStreamDecl info s k
        { (info.streams s).decls.getD k default with attr := a }) =
    ilo_state_sol_init so dev info := by
  have hk : k < (info.streams s).decls.length := by
    by_contra hge
    push_neg at hge
    rw [List.getD_eq_getElem?_getD, List.getElem?_eq_none hge] at hhole
    simp [show (default : IloStateSolDeclInfo).is_hole = false from rfl]
      at hhole
  have hupd : ∀ d : IloStateSolDeclInfo, (setStreamDecl info s k d).streams =
      Function.update info.streams s
        { info.streams s with decls := (info.streams s).decls.set k d } :=
    fun d => rfl
  have hdsz : (setStreamDecl info s k
      { (info.streams s).decls.getD k default with attr := a }).data_size =
      info.data_size := rfl
  have hdc : ∀ t : Fin 4,
      ((setStreamDecl info s k
        { (info.streams s).decls.getD k default with attr := a }).streams
          t).decl_count = (info.streams t).decl_count := by
    intro t
    rw [hupd]
    rcases eq_or_ne t s with rfl | hne
    · rw [Function.update_same]
    · rw [Function.update_noteq hne]
  have hvr : ∀ t : Fin 4,
      sol_vue_read ((setStreamDecl info s k
        { (info.streams s).decls.getD k default with attr := a }).streams
          t) = sol_vue_read (info.streams t) := by
    intro t
    rw [hupd]
    rcases eq_or_ne t s with rfl | hne
    · rw [Function.update_same]
      exact rfl
    · rw [Function.update_noteq hne]
  have hbsel : ∀ t : Fin 4,
      sol_buffer_selects ((setStreamDecl info s k
        { (info.streams s).decls.getD k default with attr := a }).streams
          t) = sol_buffer_selects (info.streams t) := by
    intro t
    rw [hupd]
    rcases eq_or_ne t s with rfl | hne
    · rw [Function.update_same]
      exact buffer_selects_set (info.streams t) k _ hk rfl
    · rw [Function.update_noteq hne]
  have hval : sol_validate_gen7 dev
      (setStreamDecl info s k
        { (info.streams s).decls.getD k default with attr := a }) =
      sol_validate_gen7 dev info := by
    simp only [sol_validate_gen7, hupd]
    congr 1
    congr 1
    apply all_congr_on
    intro t _
    rcases eq_or_ne t s with rfl | hne
    · rw [Function.update_same]
      exact stream_validate_set_hole dev (info.streams t) k a hk hhole hattr ha
    · rw [Function.update_noteq hne]
  have hentry : sol_decl_entry
      (setStreamDecl info s k
        { (info.streams s).decls.getD k default with attr := a }) =
      sol_decl_entry info := by
    funext j
    simp only [sol_decl_entry, hupd]
    apply foldl_congr_on
    intro acc i _
    rcases eq_or_ne i s with rfl | hne
    · rw [Function.update_same]
      rcases eq_or_ne j k with rfl | hjk
      · simp only [getD_set_self _ _ _ _ hk,
          so_decl_val_hole _ a hhole]
      · simp only [getD_set_ne _ _ _ _ _ (Ne.symm hjk)]
    · rw [Function.update_noteq hne]
  have hmax : sol_max_decl_count
      (setStreamDecl info s k
        { (info.streams s).decls.getD k default with attr := a }) =
      sol_max_decl_count info := by
    simp only [sol_max_decl_count, hdc]
  have h1 := streamout_congr so dev _ info hval hvr rfl rfl rfl rfl rfl
    (fun t => rfl)
  have h2 : ∀ so2 : IloStateSol,
      sol_set_gen7_3DSTATE_SO_DECL_LIST so2 dev
        (setStreamDecl info s k
          { (info.streams s).decls.getD k default with attr := a })
        (sol_max_decl_count info) =
      sol_set_gen7_3DSTATE_SO_DECL_LIST so2 dev info
        (sol_max_decl_count info) :=
    fun so2 => decllist_congr so2 dev (sol_max_decl_count info) _ info hdc
      hbsel hentry
  simp only [ilo_state_sol_init, hdsz, hmax, h1, h2]

theorem init_hole_attr_independent_witness :
    ((holeAttrInfo.streams 0).decls.getD 0 default).is_hole = true ∧
    ((holeAttrInfo.streams 0).decls.getD 0 default).attr < 33 ∧ (7 : Nat) < 33 ∧
    ilo_state_sol_init zeroIloStateSol gen7Dev
      (setStreamDecl holeAttrInfo 0 0
        { (holeAttrInfo.streams 0).decls.getD 0 default with attr := 7 }) =
    ilo_state_sol_init zeroIloStateSol gen7Dev holeAttrInfo :=
  ⟨by decide, by decide, by decide,
   init_hole_attr_independent gen7Dev holeAttrInfo zeroIloStateSol 0 0 7
     (by decide) (by decide) (by decide)⟩
